import Mathlib

/-!
Verification development for the restconf-device-info repository.

The repository is a small fleet of Python scripts that reconcile network
device configuration against a declarative intent document over RESTCONF
(push_config.py), collect device facts (collect_inventory.py,
collect_device_info.py), and manage a Meraki wireless SSID
(meraki_config.py).  We shallowly embed the Python value universe (JSON /
YAML-style values as produced by yaml.safe_load and response.json()) and
the functions of those scripts, with Python exceptions modelled as
Except String and the HTTP transport modelled as an oracle function from
resource paths to responses.
-/

set_option maxHeartbeats 1000000

/-- Python / JSON value universe: the values that flow through the scripts
(results of yaml.safe_load and r.json()).  Val.null is the Python None. -/
inductive Val where
  | null : Val
  | bool : Bool → Val
  | int : Int → Val
  | str : String → Val
  | arr : List Val → Val
  | obj : List (String × Val) → Val
  deriving Repr

mutual

/-- Decidable structural equality on values (Python == on these values). -/
def Val.decEq : (a b : Val) → Decidable (a = b)
  | .null, .null => isTrue rfl
  | .null, .bool _ => isFalse (fun h => Val.noConfusion h)
  | .null, .int _ => isFalse (fun h => Val.noConfusion h)
  | .null, .str _ => isFalse (fun h => Val.noConfusion h)
  | .null, .arr _ => isFalse (fun h => Val.noConfusion h)
  | .null, .obj _ => isFalse (fun h => Val.noConfusion h)
  | .bool _, .null => isFalse (fun h => Val.noConfusion h)
  | .bool a, .bool b =>
    if h : a = b then isTrue (by rw [h]) else isFalse (by intro hh; cases hh; exact h rfl)
  | .bool _, .int _ => isFalse (fun h => Val.noConfusion h)
  | .bool _, .str _ => isFalse (fun h => Val.noConfusion h)
  | .bool _, .arr _ => isFalse (fun h => Val.noConfusion h)
  | .bool _, .obj _ => isFalse (fun h => Val.noConfusion h)
  | .int _, .null => isFalse (fun h => Val.noConfusion h)
  | .int _, .bool _ => isFalse (fun h => Val.noConfusion h)
  | .int a, .int b =>
    if h : a = b then isTrue (by rw [h]) else isFalse (by intro hh; cases hh; exact h rfl)
  | .int _, .str _ => isFalse (fun h => Val.noConfusion h)
  | .int _, .arr _ => isFalse (fun h => Val.noConfusion h)
  | .int _, .obj _ => isFalse (fun h => Val.noConfusion h)
  | .str _, .null => isFalse (fun h => Val.noConfusion h)
  | .str _, .bool _ => isFalse (fun h => Val.noConfusion h)
  | .str _, .int _ => isFalse (fun h => Val.noConfusion h)
  | .str a, .str b =>
    if h : a = b then isTrue (by rw [h]) else isFalse (by intro hh; cases hh; exact h rfl)
  | .str _, .arr _ => isFalse (fun h => Val.noConfusion h)
  | .str _, .obj _ => isFalse (fun h => Val.noConfusion h)
  | .arr _, .null => isFalse (fun h => Val.noConfusion h)
  | .arr _, .bool _ => isFalse (fun h => Val.noConfusion h)
  | .arr _, .int _ => isFalse (fun h => Val.noConfusion h)
  | .arr _, .str _ => isFalse (fun h => Val.noConfusion h)
  | .arr xs, .arr ys =>
    match Val.decEqList xs ys with
    | isTrue h => isTrue (by rw [h])
    | isFalse h => isFalse (by intro hh; cases hh; exact h rfl)
  | .arr _, .obj _ => isFalse (fun h => Val.noConfusion h)
  | .obj _, .null => isFalse (fun h => Val.noConfusion h)
  | .obj _, .bool _ => isFalse (fun h => Val.noConfusion h)
  | .obj _, .int _ => isFalse (fun h => Val.noConfusion h)
  | .obj _, .str _ => isFalse (fun h => Val.noConfusion h)
  | .obj _, .arr _ => isFalse (fun h => Val.noConfusion h)
  | .obj xs, .obj ys =>
    match Val.decEqObj xs ys with
    | isTrue h => isTrue (by rw [h])
    | isFalse h => isFalse (by intro hh; cases hh; exact h rfl)

/-- Decidable equality on value lists. -/
def Val.decEqList : (a b : List Val) → Decidable (a = b)
  | [], [] => isTrue rfl
  | [], _ :: _ => isFalse (fun h => List.noConfusion h)
  | _ :: _, [] => isFalse (fun h => List.noConfusion h)
  | x :: xs, y :: ys =>
    match Val.decEq x y with
    | isFalse h => isFalse (by intro hh; cases hh; exact h rfl)
    | isTrue h1 =>
      match Val.decEqList xs ys with
      | isTrue h2 => isTrue (by rw [h1, h2])
      | isFalse h2 => isFalse (by intro hh; cases hh; exact h2 rfl)

/-- Decidable equality on key-value lists. -/
def Val.decEqObj : (a b : List (String × Val)) → Decidable (a = b)
  | [], [] => isTrue rfl
  | [], _ :: _ => isFalse (fun h => List.noConfusion h)
  | _ :: _, [] => isFalse (fun h => List.noConfusion h)
  | (k, v) :: xs, (k', v') :: ys =>
    if hk : k = k' then
      match Val.decEq v v' with
      | isFalse h => isFalse (by intro hh; cases hh; exact h rfl)
      | isTrue h1 =>
        match Val.decEqObj xs ys with
        | isTrue h2 => isTrue (by rw [hk, h1, h2])
        | isFalse h2 => isFalse (by intro hh; cases hh; exact h2 rfl)
    else isFalse (by intro hh; cases hh; exact hk rfl)

end

instance : DecidableEq Val := Val.decEq

instance {e a : Type} [DecidableEq e] [DecidableEq a] : DecidableEq (Except e a) := fun x y =>
  match x, y with
  | .ok u, .ok v =>
    if h : u = v then isTrue (by rw [h]) else isFalse (by intro hh; cases hh; exact h rfl)
  | .ok _, .error _ => isFalse (fun h => Except.noConfusion h)
  | .error _, .ok _ => isFalse (fun h => Except.noConfusion h)
  | .error u, .error v =>
    if h : u = v then isTrue (by rw [h]) else isFalse (by intro hh; cases hh; exact h rfl)

/-- Python truthiness of a value (bool(v)): None, False, 0, empty string,
empty list and empty dict are falsy. -/
def Val.truthy : Val → Bool
  | .null => false
  | .bool b => b
  | .int n => n != 0
  | .str s => s != ""
  | .arr xs => !xs.isEmpty
  | .obj kvs => !kvs.isEmpty

/-- First-match association lookup, the dictionary lookup of the embedding
(Python dicts have unique keys; parsed JSON objects are in insertion order). -/
def lookupK (k : String) : List (String × Val) → Option Val
  | [] => Option.none
  | (k', v) :: rest => if k' = k then some v else lookupK k rest

/-- Python d.get(key, default): returns the default when the key is missing
and raises AttributeError when the receiver is not a dict. -/
def Val.get (v : Val) (k : String) (dflt : Val) : Except String Val :=
  match v with
  | .obj kvs => Except.ok ((lookupK k kvs).getD dflt)
  | _ => Except.error "AttributeError"

/-- Python d.get(key) with no default: missing keys give None. -/
def Val.getN (v : Val) (k : String) : Except String Val :=
  v.get k Val.null

/-- Python d[key]: raises KeyError when the key is missing, TypeError when
the receiver is not a dict. -/
def Val.index (v : Val) (k : String) : Except String Val :=
  match v with
  | .obj kvs =>
    match lookupK k kvs with
    | some x => Except.ok x
    | Option.none => Except.error ("KeyError: " ++ k)
  | _ => Except.error "TypeError"

/-- Python iteration (for x in v): lists give elements, dicts give their
keys, strings give one-character strings; other values are not iterable. -/
def Val.iter : Val → Except String (List Val)
  | .arr xs => Except.ok xs
  | .obj kvs => Except.ok (kvs.map (fun kv => Val.str kv.1))
  | .str s => Except.ok (s.toList.map (fun c => Val.str (String.singleton c)))
  | _ => Except.error "TypeError: not iterable"

/-- Python d.items(): raises AttributeError on a non-dict. -/
def Val.items : Val → Except String (List (String × Val))
  | .obj kvs => Except.ok kvs
  | _ => Except.error "AttributeError"

/-- Python str(v) as used in f-strings of the scripts; scalar values render
as in Python, container values render in their JSON shape (the scripts only
ever format scalar intent fields such as loopback names and addresses). -/
def Val.pyStr : Val → String
  | .null => "None"
  | .bool true => "True"
  | .bool false => "False"
  | .int n => toString n
  | .str s => s
  | .arr _ => "[...]"
  | .obj _ => "[dict]"

/-- One HTTP response, as the requests library presents it to the scripts:
a status code, the body text (r.text, with r.content truthy iff the text is
non-empty), and the result of r.json() (some v when the body parses). -/
structure Resp where
  status : Nat
  text : String
  json : Option Val
  deriving Repr, DecidableEq

/-- requests marks a response ok when its status code is below 400. -/
def Resp.isOk (r : Resp) : Bool := r.status < 400

/-- The transport of one device, the oracle a requests.Session is to the
scripts: a GET and a write (method, resource path, document) per RESTCONF
resource path below the per-host restconf/data base.  An Except.error is a
raised requests.RequestException (connection refused, TLS failure, timeout). -/
structure DevNet where
  get : String → Except String Resp
  write : String → String → Val → Except String Resp

namespace PushConfig

/-- Body of rc_get of push_config.py: defaults to an empty dict, is the
parsed JSON when the body is non-empty and parses, and wraps the raw text
under the key _raw when parsing fails. -/
def rcBody (r : Resp) : Val :=
  if r.text = "" then Val.obj []
  else
    match r.json with
    | some b => b
    | Option.none => Val.obj [("_raw", Val.str r.text)]

/-- rc_get of push_config.py: GET host/restconf/data/path, returning the
pair (status_code, body).  A transport exception is not caught here and
propagates. -/
def rc_get (net : DevNet) (path : String) : Except String (Nat × Val) := do
  let r ← net.get path
  pure (r.status, rcBody r)

/-- build_native_payload of push_config.py: the native-config PATCH document,
keyed by the IOS-XE native root, holding only the truthy intent keys. -/
def build_native_payload (intent : Val) : Except String Val := do
  let sys ← intent.get "system" (Val.obj [])
  let ntp ← intent.get "ntp" (Val.obj [])
  let hn ← sys.getN "hostname"
  let dn ← sys.getN "domain_name"
  let bm ← sys.getN "banner_motd"
  let sv0 ← ntp.get "servers" (Val.arr [])
  let servers := if sv0.truthy then sv0 else Val.arr []
  let ntpPart ←
    if servers.truthy then do
      let l ← servers.iter
      pure [("ntp", Val.obj [("server", Val.arr (l.map (fun ip => Val.obj [("ip-address", ip)])))])]
    else pure []
  pure (Val.obj [("Cisco-IOS-XE-native:native", Val.obj (
    (if hn.truthy then [("hostname", hn)] else []) ++
    (if dn.truthy then [("ip", Val.obj [("domain", Val.obj [("name", dn)])])] else []) ++
    (if bm.truthy then [("banner", Val.obj [("motd", Val.obj [("banner", bm)])])] else []) ++
    ntpPart))])

/-- build_ietf_loopback_payload of push_config.py: the PUT document for one
loopback interface. -/
def build_ietf_loopback_payload (lb : Val) : Except String Val := do
  let nm ← lb.index "name"
  let ip ← lb.index "ip"
  let mask ← lb.index "mask"
  pure (Val.obj [("ietf-interfaces:interface", Val.obj [
    ("name", Val.str ("Loopback" ++ nm.pyStr)),
    ("type", Val.str "iana-if-type:softwareLoopback"),
    ("enabled", Val.bool true),
    ("ietf-ip:ipv4", Val.obj [("address", Val.arr [
      Val.obj [("ip", Val.str ip.pyStr), ("netmask", Val.str mask.pyStr)]])])])])

/-- restconf_patch_native of push_config.py (the URL building and JSON
serialization of the transport are folded into DevNet.write). -/
def restconf_patch_native (net : DevNet) (native_payload : Val) : Except String Resp :=
  net.write "PATCH" "Cisco-IOS-XE-native:native" native_payload

/-- restconf_put_interface of push_config.py. -/
def restconf_put_interface (net : DevNet) (if_name : String) (payload : Val) : Except String Resp :=
  net.write "PUT" ("ietf-interfaces:interfaces/interface=" ++ if_name) payload

/-- One check record of push_config.py (check_hostname / check_loopbacks
result dictionaries; the Python key match is spelled match_). -/
structure Check where
  item : String
  intent : Val
  actual : Val
  http : Nat
  match_ : Bool
  deriving Repr, DecidableEq

/-- next(iter(body.values())) of check_hostname: the first value of a dict,
raising StopIteration on an empty dict and AttributeError on a non-dict. -/
def firstValue : Val → Except String Val
  | Val.obj [] => Except.error "StopIteration"
  | Val.obj ((_, v) :: _) => Except.ok v
  | _ => Except.error "AttributeError"

/-- check_hostname of push_config.py. -/
def check_hostname (net : DevNet) (intent_hostname : Val) : Except String Check := do
  let cb ← rc_get net "Cisco-IOS-XE-native:native/hostname"
  let code := cb.1
  if code = 200 then do
    let actual ← firstValue cb.2
    pure ⟨"hostname", intent_hostname, actual, code, decide (intent_hostname = actual)⟩
  else
    pure ⟨"hostname", intent_hostname, Val.null, code, decide (intent_hostname = Val.null)⟩

/-- Python subscripting v[0] as used on the address list of check_loopbacks. -/
def subscript0 : Val → Except String Val
  | Val.arr (a :: _) => Except.ok a
  | Val.arr [] => Except.error "IndexError"
  | Val.str s => if s = "" then Except.error "IndexError" else Except.ok (Val.str (s.take 1))
  | _ => Except.error "TypeError"

/-- Body of the try block of check_loopbacks projecting the first configured
IPv4 address out of an interface read. -/
def loopbackTry (body : Val) : Except String Val := do
  let iface ← body.get "ietf-interfaces:interface" (Val.obj [])
  let ipv4 ← iface.get "ietf-ip:ipv4" (Val.obj [])
  let addrs ← ipv4.get "address" (Val.arr [])
  if addrs.truthy then do
    let a0 ← subscript0 addrs
    a0.getN "ip"
  else pure Val.null

/-- The actual loopback IP of check_loopbacks: the try block with every
exception swallowed (except: pass), leaving None. -/
def loopbackActual (body : Val) : Val :=
  match loopbackTry body with
  | Except.ok v => v
  | Except.error _ => Val.null

/-- One iteration of the check_loopbacks loop. -/
def check_loopback1 (net : DevNet) (lb : Val) : Except String Check := do
  let nm ← lb.index "name"
  let name := "Loopback" ++ nm.pyStr
  let cb ← rc_get net ("ietf-interfaces:interfaces/interface=" ++ name)
  let actual := if cb.1 = 200 then loopbackActual cb.2 else Val.null
  let ipv ← lb.index "ip"
  pure ⟨"interface-" ++ name, ipv, actual, cb.1, decide (ipv = actual)⟩

/-- Loop body of check_loopbacks over the already materialized entries. -/
def check_loopbacksL (net : DevNet) : List Val → Except String (List Check)
  | [] => Except.ok []
  | lb :: rest => do
    let c ← check_loopback1 net lb
    let cs ← check_loopbacksL net rest
    pure (c :: cs)

/-- check_loopbacks of push_config.py: iterates intent_loopbacks or []. -/
def check_loopbacks (net : DevNet) (intent_loopbacks : Val) : Except String (List Check) := do
  let lv := if intent_loopbacks.truthy then intent_loopbacks else Val.arr []
  let lbs ← lv.iter
  check_loopbacksL net lbs

/-- One per-operation outcome appended to status.steps by main. -/
structure Step where
  op : String
  http : Option Nat
  ok : Bool
  err : Option String
  deriving Repr, DecidableEq

/-- The outcome record main builds from a write response r:
op label, r.status_code, r.ok, and r.text when not ok. -/
def stepOf (lbl : String) (r : Resp) : Step :=
  ⟨lbl, some r.status, r.isOk, if r.isOk then Option.none else some r.text⟩

/-- Loopback portion of the apply loop in main (lines 186-192): per entry
build the PUT payload, issue it, record the outcome, continue. -/
def lbSteps (net : DevNet) : List Val → Except String (List Step)
  | [] => Except.ok []
  | lb :: rest => do
    let nm ← lb.index "name"
    let if_name := "Loopback" ++ nm.pyStr
    let payload ← build_ietf_loopback_payload lb
    let r ← restconf_put_interface net if_name payload
    let rest' ← lbSteps net rest
    pure (stepOf ("put-" ++ if_name) r :: rest')

/-- Apply section of main (lines 180-192): the native PATCH is issued only
when the inner native document is truthy (non-empty), then one PUT per
loopback entry, in order.  Transport exceptions are not caught and abort
the remaining operations. -/
def applySteps (net : DevNet) (native_payload : Val) (lbsV : Val) : Except String (List Step) := do
  let native ← native_payload.index "Cisco-IOS-XE-native:native"
  let first ←
    if native.truthy then do
      let r ← restconf_patch_native net native_payload
      pure [stepOf "native-patch" r]
    else pure []
  let lbs ← lbsV.iter
  let rest ← lbSteps net lbs
  pure (first ++ rest)

/-- One write operation as a datum: method, resource path and document. -/
structure WriteOp where
  method : String
  path : String
  doc : Val
  deriving Repr, DecidableEq

/-- The labelled write operations the apply loop would issue for the
loopback entries, computed without any device interaction. -/
def lbOps : List Val → Except String (List (String × WriteOp))
  | [] => Except.ok []
  | lb :: rest => do
    let nm ← lb.index "name"
    let if_name := "Loopback" ++ nm.pyStr
    let payload ← build_ietf_loopback_payload lb
    let rest' ← lbOps rest
    pure (("put-" ++ if_name,
      WriteOp.mk "PUT" ("ietf-interfaces:interfaces/interface=" ++ if_name) payload) :: rest')

/-- All labelled write operations of the apply loop: the native PATCH when
its document is truthy, then the loopback PUTs.  A pure function of the
intent-derived payloads; no DevNet argument. -/
def opsFrom (native_payload : Val) (lbsV : Val) : Except String (List (String × WriteOp)) := do
  let native ← native_payload.index "Cisco-IOS-XE-native:native"
  let lbs ← lbsV.iter
  let rest ← lbOps lbs
  pure ((if native.truthy then
    [("native-patch", WriteOp.mk "PATCH" "Cisco-IOS-XE-native:native" native_payload)]
  else []) ++ rest)

/-- Generic executor: issue the given labelled operations in order against a
device, recording one outcome per operation. -/
def execOps (net : DevNet) : List (String × WriteOp) → Except String (List Step)
  | [] => Except.ok []
  | (lbl, o) :: rest => do
    let r ← net.write o.method o.path o.doc
    let rest' ← execOps net rest
    pure (stepOf lbl r :: rest')

/-- Per-device report entry of main (the status dictionary). -/
structure DevStatus where
  device_name : Val
  host : Val
  steps : List Step
  checks : List Check
  deriving Repr, DecidableEq

/-- Header of the per-device loop of main (lines 170-174): display name,
host, credentials.  A missing host/username/password key raises KeyError
out of the loop. -/
def devHeader (dev : Val) : Except String (Val × Val) := do
  let nd ← dev.getN "name"
  let nameV ← if nd.truthy then pure nd else dev.index "host"
  let hostV ← dev.index "host"
  let _user ← dev.index "username"
  let _pwd ← dev.index "password"
  pure (nameV, hostV)

/-- One iteration of the per-device loop of main (lines 169-203): header,
session construction, apply section or dry-run marker, check section. -/
def processDevice (applyF checkF : Bool) (intent native_payload lbsV : Val)
    (dev : Val) (net : DevNet) : Except String DevStatus := do
  let nh ← devHeader dev
  let steps ←
    if applyF then applySteps net native_payload lbsV
    else pure [Step.mk "dry-run" Option.none true Option.none]
  let checks ←
    if checkF then do
      let sys ← intent.get "system" (Val.obj [])
      let hn ← sys.getN "hostname"
      let c ← check_hostname net hn
      let cs ← check_loopbacks net lbsV
      pure (c :: cs)
    else pure []
  pure ⟨nh.1, nh.2, steps, checks⟩

/-- Abort-on-exception fold of the per-device loop: results accumulate in
order and a raised exception discards them and aborts the run, exactly as
an uncaught Python exception leaves the for loop of main. -/
def exMapM {α β : Type} (f : α → Except String β) : List α → Except String (List β)
  | [] => Except.ok []
  | x :: xs => do
    let y ← f x
    let ys ← exMapM f xs
    pure (y :: ys)

/-- Fleet portion of main: build the native payload and the loopback list
once from the intent (lines 164-165), then process every device of the
inventory in order (lines 169-203). -/
def fleetRun (applyF checkF : Bool) (intent : Val) (devs : List (Val × DevNet)) :
    Except String (List DevStatus) := do
  let native_payload ← build_native_payload intent
  let lbs0 ← intent.get "loopbacks" (Val.arr [])
  let lbsV := if lbs0.truthy then lbs0 else Val.arr []
  exMapM (fun dn => processDevice applyF checkF intent native_payload lbsV dn.1 dn.2) devs

end PushConfig

namespace CollectInventory

/-- rc_get of collect_inventory.py: returns the Python triple
(data, status_code, error).  Transport exceptions are caught and become
(None, None, message); a response below status 400 whose body does not
parse becomes (None, status, Invalid JSON); a response at status 400 or
above becomes (None, status, body text). -/
def rc_get (net : DevNet) (path : String) : Val × Option Nat × Val :=
  match net.get path with
  | Except.error e => (Val.null, Option.none, Val.str e)
  | Except.ok r =>
    if r.isOk then
      match r.json with
      | some j => (j, some r.status, Val.null)
      | Option.none => (Val.null, some r.status, Val.str "Invalid JSON")
    else (Val.null, some r.status, Val.str r.text)

/-- Python substring membership sub in s, on the character lists of the
embedding. -/
def pyIn (sub s : List Char) : Bool := decide (sub <:+: s)

/-- get_hostname of collect_inventory.py: first value whose key contains
the word hostname; None when the read yields no data or no key matches. -/
def get_hostname (net : DevNet) : Except String Val := do
  let d := (rc_get net "Cisco-IOS-XE-native:native/hostname").1
  if d.truthy then do
    let kvs ← d.items
    match kvs.find? (fun kv => pyIn "hostname".data kv.1.data) with
    | some kv => pure kv.2
    | Option.none => pure Val.null
  else pure Val.null

/-- get_version of collect_inventory.py. -/
def get_version (net : DevNet) : Except String Val := do
  let d := (rc_get net "Cisco-IOS-XE-native:native/version").1
  if d.truthy then do
    let kvs ← d.items
    match kvs.find? (fun kv => pyIn "version".data kv.1.data) with
    | some kv => pure kv.2
    | Option.none => pure Val.null
  else pure Val.null

/-- next(iter(data)) over a truthy dict of get_interfaces_summary: the first
key.  A truthy non-dict read result makes the subsequent subscripting and
attribute accesses of the source raise, modelled as the error here. -/
def firstKey : Val → Except String String
  | Val.obj ((k, _) :: _) => Except.ok k
  | _ => Except.error "TypeError"

/-- Loop body of get_interfaces_summary: one row and counter update per
interface entry. -/
def ifaceRows : List Val → Except String (List Val × Nat × Nat × Nat)
  | [] => Except.ok ([], 0, 0, 0)
  | iface :: rest => do
    let nm ← iface.getN "name"
    let en ← iface.getN "enabled"
    let op ← iface.getN "oper-status"
    let r ← ifaceRows rest
    pure (Val.obj [("name", nm), ("admin_enabled", en), ("oper_status", op)] :: r.1,
      r.2.1 + 1,
      r.2.2.1 + (if op = Val.str "up" then 1 else 0),
      r.2.2.2 + (if op = Val.str "down" then 1 else 0))

/-- get_interfaces_summary of collect_inventory.py: items, total, up, down. -/
def get_interfaces_summary (net : DevNet) : Except String (List Val × Nat × Nat × Nat) := do
  let d := (rc_get net "ietf-interfaces:interfaces").1
  if d.truthy then do
    let rk ← firstKey d
    let sub ← d.index rk
    let ifl ← sub.get "interface" (Val.arr [])
    let ifaces ← ifl.iter
    ifaceRows ifaces
  else pure ([], 0, 0, 0)

/-- item.get("serial-number") or item.get("serial") of the serial-number
probes. -/
def serialOfItem (item : Val) : Except String Val := do
  let a ← item.getN "serial-number"
  if a.truthy then pure a else item.getN "serial"

/-- for item in inv: return the first truthy serial of the inventory list. -/
def serialFromItems : List Val → Except String (Option Val)
  | [] => Except.ok Option.none
  | item :: rest => do
    let sn ← serialOfItem item
    if sn.truthy then pure (some sn) else serialFromItems rest

/-- Inventory-list branch of get_serial_number: runs the item loop when the
inventory value is a list (the isinstance check), else yields nothing. -/
def serialFromInv : Val → Except String (Option Val)
  | Val.arr items => serialFromItems items
  | _ => pure Option.none

/-- Device-information branch of get_serial_number: probes the block when
it is a dict (the isinstance check), else yields nothing. -/
def serialFromInfo (info : Val) : Except String (Option Val) :=
  match info with
  | Val.obj _ => do
    let sn ← serialOfItem info
    if sn.truthy then pure (some sn) else pure Option.none
  | _ => pure Option.none

/-- Extraction of one candidate read of get_serial_number: the inventory
list shape, then the device-information block shape. -/
def serialFromData (data : Val) : Except String (Option Val) := do
  let inv ← data.getN "Cisco-IOS-XE-device-hardware-oper:device-inventory"
  let fromInv ← serialFromInv inv
  match fromInv with
  | some sn => pure (some sn)
  | Option.none => do
    let info ← data.getN "Cisco-IOS-XE-device-hardware-oper:device-information"
    serialFromInfo info

/-- The two candidate resource paths of get_serial_number. -/
def serialCandidates : List String :=
  ["Cisco-IOS-XE-device-hardware-oper:device-hardware-data/device-hardware/device-inventory",
   "Cisco-IOS-XE-device-hardware-oper:device-hardware-data/device-hardware/device-information"]

/-- Candidate loop of get_serial_number of collect_inventory.py: skip
candidates without data, return the first extracted serial, fall through to
the next candidate otherwise, None after the last. -/
def serialLoop (net : DevNet) : List String → Except String Val
  | [] => Except.ok Val.null
  | p :: rest => do
    let d := (rc_get net p).1
    if d.truthy then do
      let r ← serialFromData d
      match r with
      | some sn => pure sn
      | Option.none => serialLoop net rest
    else serialLoop net rest

/-- get_serial_number of collect_inventory.py. -/
def get_serial_number (net : DevNet) : Except String Val :=
  serialLoop net serialCandidates

/-- Ordered update of one key of the payload dict (Python item assignment
on a dict that already holds the key). -/
def setK : List (String × Val) → String → Val → List (String × Val)
  | [], k, v => [(k, v)]
  | (k', v') :: rest, k, v =>
    if k' = k then (k, v) :: rest else (k', v') :: setK rest k v

/-- The payload dictionary collect_for_device initializes before its try
block, in source key order. -/
def baseP (nameV hostV : Val) (now : String) : List (String × Val) :=
  [("device_name", nameV), ("host", hostV), ("hostname", Val.null), ("version", Val.null),
   ("serial_number", Val.null), ("interfaces", Val.arr []), ("interfaces_total", Val.int 0),
   ("interfaces_up", Val.int 0), ("interfaces_down", Val.int 0), ("collected_at", Val.str now)]

/-- collect_for_device of collect_inventory.py: header field accesses (a
missing host/username/password raises out of the function), then the
try block running the four collectors in order, mutating the payload; any
exception inside the try is caught and returned with the payload gathered
so far.  now stands for time.strftime at entry. -/
def collect_for_device (dev : Val) (net : DevNet) (now : String) :
    Except String (Val × Option String) := do
  let nh ← PushConfig.devHeader dev
  let base := baseP nh.1 nh.2 now
  match get_hostname net with
  | Except.error e => pure (Val.obj base, some e)
  | Except.ok hv =>
    let p1 := setK base "hostname" hv
    match get_version net with
    | Except.error e => pure (Val.obj p1, some e)
    | Except.ok vv =>
      let p2 := setK p1 "version" vv
      match get_interfaces_summary net with
      | Except.error e => pure (Val.obj p2, some e)
      | Except.ok ifr =>
        let p3 := setK (setK (setK (setK p2 "interfaces" (Val.arr ifr.1))
          "interfaces_total" (Val.int ifr.2.1)) "interfaces_up" (Val.int ifr.2.2.1))
          "interfaces_down" (Val.int ifr.2.2.2)
        match get_serial_number net with
        | Except.error e => pure (Val.obj p3, some e)
        | Except.ok sn => pure (Val.obj (setK p3 "serial_number" sn), Option.none)

/-- Fleet loop of main of collect_inventory.py: one (payload, error) row per
device, in inventory order; the CSV and JSON writing around it is external
I/O. -/
def fleet (devs : List (Val × DevNet)) (now : String) :
    Except String (List (Val × Option String)) :=
  PushConfig.exMapM (fun dn => collect_for_device dn.1 dn.2 now) devs

end CollectInventory

/-- Comma-space separated join of json.dumps with default separators. -/
def joinComma : List (List Char) → List Char
  | [] => []
  | [x] => x
  | x :: y :: rest => x ++ ',' :: ' ' :: joinComma (y :: rest)

mutual

/-- json.dumps of a value as a character list (default separators; the
string values of the scripts contain no characters needing escapes, so the
escaping of the encoder is the identity here). -/
def serialize : Val → List Char
  | Val.null => "null".data
  | Val.bool true => "true".data
  | Val.bool false => "false".data
  | Val.int n => (toString n).data
  | Val.str s => '"' :: s.data ++ ['"']
  | Val.arr xs => '[' :: joinComma (serializeL xs) ++ [']']
  | Val.obj kvs => '{' :: joinComma (serializeKV kvs) ++ ['}']

/-- Serializations of the elements of a JSON array. -/
def serializeL : List Val → List (List Char)
  | [] => []
  | x :: xs => serialize x :: serializeL xs

/-- Serializations of the entries of a JSON object. -/
def serializeKV : List (String × Val) → List (List Char)
  | [] => []
  | (k, v) :: kvs => ('"' :: k.data ++ '"' :: ':' :: ' ' :: serialize v) :: serializeKV kvs

end

/-- Python str.lower() on a character list. -/
def lowerL (s : List Char) : List Char := s.map Char.toLower

namespace CollectDeviceInfo

/-- rc_get of collect_device_info.py: returns the pair (data, status_code);
transport exceptions are caught (the error print is external I/O) and both
components become None; an unparseable ok body and a non-ok status also
yield data None. -/
def rc_get (net : DevNet) (path : String) : Val × Option Nat :=
  match net.get path with
  | Except.error _ => (Val.null, Option.none)
  | Except.ok r =>
    if r.isOk then
      match r.json with
      | some j => (j, some r.status)
      | Option.none => (Val.null, some r.status)
    else (Val.null, some r.status)

/-- Candidate loop of get_serial_number of collect_device_info.py: like the
collect_inventory loop, but the two shape probes run only when the lowered
json.dumps text of the data contains the word serial. -/
def serialLoop (net : DevNet) : List String → Except String Val
  | [] => Except.ok Val.null
  | p :: rest => do
    let d := (rc_get net p).1
    if d.truthy then
      if CollectInventory.pyIn "serial".data (lowerL (serialize d)) then do
        let r ← CollectInventory.serialFromData d
        match r with
        | some sn => pure sn
        | Option.none => serialLoop net rest
      else serialLoop net rest
    else serialLoop net rest

/-- get_serial_number of collect_device_info.py (same candidate paths). -/
def get_serial_number (net : DevNet) : Except String Val :=
  serialLoop net CollectInventory.serialCandidates

end CollectDeviceInfo

namespace MerakiConfig

/-- Desired SSID state of main of meraki_config.py: the managed subset of
the intent ssid section, in source order; name, enabled and authMode are
required subscripts, psk and ipAssignmentMode default to None. -/
def desiredOf (ssid_spec : Val) : Except String (List (String × Val)) := do
  let nm ← ssid_spec.index "name"
  let en ← ssid_spec.index "enabled"
  let am ← ssid_spec.index "authMode"
  let psk ← ssid_spec.getN "psk"
  let ipm ← ssid_spec.getN "ipAssignmentMode"
  pure [("name", nm), ("enabled", en), ("authMode", am), ("psk", psk),
    ("ipAssignmentMode", ipm)]

/-- Minimal diff of main of meraki_config.py: the desired entries whose
value differs from the current SSID state read from the device. -/
def changesOf (current : Val) : List (String × Val) → Except String (List (String × Val))
  | [] => Except.ok []
  | (k, v) :: rest => do
    let cv ← current.getN k
    let tail ← changesOf current rest
    if cv ≠ v then pure ((k, v) :: tail) else pure tail

/-- The keyword arguments of the updateNetworkWirelessSsid call: the diff
entries whose value is not None. -/
def updatePayload (changes : List (String × Val)) : List (String × Val) :=
  changes.filter (fun kv => kv.2 ≠ Val.null)

end MerakiConfig

/-- Pure counterpart of serialOfItem on a dict item: the truthy
serial-number or serial value, if any; None-producing and non-dict shapes
yield no extraction. -/
def itemSerial : Val → Option Val
  | Val.obj kvs =>
    let a := (lookupK "serial-number" kvs).getD Val.null
    let sn := if a.truthy then a else (lookupK "serial" kvs).getD Val.null
    if sn.truthy then some sn else Option.none
  | _ => Option.none

/-- First extracted serial of an inventory list. -/
def itemsSerial : List Val → Option Val
  | [] => Option.none
  | item :: rest =>
    match itemSerial item with
    | some sn => some sn
    | Option.none => itemsSerial rest

/-- Serial of an inventory value: the item-loop result when it is a list. -/
def invSerialV : Val → Option Val
  | Val.arr items => itemsSerial items
  | _ => Option.none

/-- Serial of a device-information value: the item probe when it is a dict. -/
def infoSerialV : Val → Option Val
  | Val.obj ikvs => itemSerial (Val.obj ikvs)
  | _ => Option.none

/-- Extraction of the inventory-list shape from the data of a candidate. -/
def invSerial (kvs : List (String × Val)) : Option Val :=
  invSerialV ((lookupK "Cisco-IOS-XE-device-hardware-oper:device-inventory" kvs).getD Val.null)

/-- Extraction of the device-information shape from the data of a candidate. -/
def infoSerial (kvs : List (String × Val)) : Option Val :=
  infoSerialV ((lookupK "Cisco-IOS-XE-device-hardware-oper:device-information" kvs).getD
    Val.null)

/-- The extraction a serial-number probe performs on the data of one candidate:
the inventory-list shape first, then the device-information shape. -/
def serialExtract : Val → Option Val
  | Val.obj kvs =>
    (match invSerial kvs with
     | some sn => some sn
     | Option.none => infoSerial kvs)
  | _ => Option.none

/-- Data shapes on which the serial probes run without raising an
exception: anything falsy (skipped by the loop), or a dict whose inventory
entry, when it is a list, holds only dicts. -/
def wellShapedSerial (data : Val) : Bool :=
  if data.truthy then
    match data with
    | Val.obj kvs =>
      (match (lookupK "Cisco-IOS-XE-device-hardware-oper:device-inventory" kvs).getD Val.null with
       | Val.arr items => items.all (fun it => match it with | Val.obj _ => true | _ => false)
       | _ => true)
    | _ => false
  else true

/-- The probe result of one candidate path: the extraction of the read
data, when the read yields truthy data. -/
def probeOf (net : DevNet) (p : String) : Option Val :=
  if ((CollectInventory.rc_get net p).1).truthy then
    serialExtract (CollectInventory.rc_get net p).1
  else Option.none

section Fixtures

/-- A transport whose reads all answer 200 with a one-key hostname document
and whose writes all answer 204. -/
def okNet : DevNet :=
  ⟨fun _ => Except.ok ⟨200, "x", some (Val.obj [("Cisco-IOS-XE-native:hostname", Val.str "BR1")])⟩,
   fun _ _ _ => Except.ok ⟨204, "", Option.none⟩⟩

/-- A transport whose reads all answer 404 with a plain-text body. -/
def notFoundNet : DevNet :=
  ⟨fun _ => Except.ok ⟨404, "not found", Option.none⟩,
   fun _ _ _ => Except.ok ⟨404, "not found", Option.none⟩⟩

/-- A transport whose reads answer 200 with a body that is not JSON. -/
def rawNet : DevNet :=
  ⟨fun _ => Except.ok ⟨200, "<html>oops", Option.none⟩,
   fun _ _ _ => Except.ok ⟨204, "", Option.none⟩⟩

/-- A transport that raises a connection error on every request. -/
def downNet : DevNet :=
  ⟨fun _ => Except.error "ConnectionError", fun _ _ _ => Except.error "ConnectionError"⟩

/-- A transport that raises a connection error on the PUT of Loopback100
(the second of three apply operations in the C3 scenario) and otherwise
answers every request with 204 / 200. -/
def failOp2Net : DevNet :=
  ⟨fun _ => Except.ok ⟨200, "x", some (Val.obj [("Cisco-IOS-XE-native:hostname", Val.str "BR1")])⟩,
   fun _ p _ =>
     if p = "ietf-interfaces:interfaces/interface=Loopback100" then
       Except.error "ConnectionError"
     else Except.ok ⟨204, "", Option.none⟩⟩

/-- A well-formed device descriptor for the fixtures. -/
def devA : Val :=
  Val.obj [("name", Val.str "r1"), ("host", Val.str "https://r1.lab"),
    ("username", Val.str "admin"), ("password", Val.str "pw")]

/-- An intent managing one hostname and two loopbacks. -/
def intentTwoLb : Val :=
  Val.obj [("system", Val.obj [("hostname", Val.str "BR1")]),
    ("loopbacks", Val.arr [
      Val.obj [("name", Val.int 100), ("ip", Val.str "10.0.0.1"), ("mask", Val.str "255.255.255.255")],
      Val.obj [("name", Val.int 200), ("ip", Val.str "10.0.0.2"), ("mask", Val.str "255.255.255.255")]])]

/-- A serial-number transport: the first candidate path answers with an
inventory list whose second member carries the serial, the second candidate
would answer with a device-information block holding a different serial. -/
def serialNet : DevNet :=
  ⟨fun p =>
     if p = "Cisco-IOS-XE-device-hardware-oper:device-hardware-data/device-hardware/device-inventory" then
       Except.ok ⟨200, "x", some (Val.obj [("Cisco-IOS-XE-device-hardware-oper:device-inventory",
         Val.arr [Val.obj [("part-number", Val.str "P1")],
           Val.obj [("serial-number", Val.str "SN100")]])])⟩
     else
       Except.ok ⟨200, "x", some (Val.obj [("Cisco-IOS-XE-device-hardware-oper:device-information",
         Val.obj [("serial-number", Val.str "OTHER")])])⟩,
   fun _ _ _ => Except.ok ⟨204, "", Option.none⟩⟩

/-- An SSID intent section without psk and ipAssignmentMode. -/
def ssidSpecW : Val :=
  Val.obj [("number", Val.int 1), ("name", Val.str "LabWifi"), ("enabled", Val.bool true),
    ("authMode", Val.str "psk")]

/-- The desired mapping main builds from ssidSpecW. -/
def desiredW : List (String × Val) :=
  [("name", Val.str "LabWifi"), ("enabled", Val.bool true), ("authMode", Val.str "psk"),
    ("psk", Val.null), ("ipAssignmentMode", Val.null)]

/-- A current SSID state already matching ssidSpecW. -/
def currentMatchW : Val :=
  Val.obj [("name", Val.str "LabWifi"), ("enabled", Val.bool true), ("authMode", Val.str "psk")]

end Fixtures

/-! Helper lemmas. -/

@[simp] theorem exbind_ok {α β : Type} (a : α) (f : α → Except String β) :
    (Except.ok a >>= f) = f a := rfl

@[simp] theorem exbind_err {α β : Type} (e : String) (f : α → Except String β) :
    ((Except.error e : Except String α) >>= f) = Except.error e := rfl

@[simp] theorem expure_eq {α : Type} (a : α) :
    (pure a : Except String α) = Except.ok a := rfl

theorem lookupK_append (k : String) (l1 l2 : List (String × Val)) :
    lookupK k (l1 ++ l2) =
      match lookupK k l1 with
      | some v => some v
      | Option.none => lookupK k l2 := by
  induction l1 with
  | nil => simp [lookupK]
  | cons kv rest ih =>
    by_cases hk : kv.1 = k
    · simp [lookupK, hk]
    · simp [lookupK, hk, ih]

theorem lookupK_cond (k k' : String) (v : Val) (b : Bool) :
    lookupK k (if b then [(k', v)] else ([] : List (String × Val))) =
      if b = true ∧ k' = k then some v else Option.none := by
  cases b <;> by_cases hk : k' = k <;> simp [lookupK, hk]

theorem check_loopback1_props (net : DevNet) (lb n ip : Val) (r : Resp)
    (hn : lb.index "name" = Except.ok n) (hip : lb.index "ip" = Except.ok ip)
    (hr : net.get ("ietf-interfaces:interfaces/interface=" ++ ("Loopback" ++ n.pyStr)) =
      Except.ok r) :
    ∃ c, PushConfig.check_loopback1 net lb = Except.ok c ∧ c.intent = ip ∧
      c.match_ = decide (c.intent = c.actual) ∧ (c.http ≠ 200 → c.actual = Val.null) := by
  simp only [PushConfig.check_loopback1, PushConfig.rc_get, hn, hip, hr, exbind_ok, expure_eq]
  refine ⟨_, rfl, rfl, rfl, ?_⟩
  intro h
  simp only at h ⊢
  rw [if_neg h]

/-! Claim theorems. -/

/-- C1 (counterexample): a hostname check whose read returns transport
status 404 and whose intended value is None (an intent without a system
hostname) produces a record with actual = None and match = true, refuting
that a status other than 200 always yields match = false and that match
holds only for a non-null actual. -/
theorem C1_counterexample :
    PushConfig.check_hostname notFoundNet Val.null =
      Except.ok ⟨"hostname", Val.null, Val.null, 404, true⟩ := rfl

/-- C1 (amended): for every check, match is true iff the actual value is
structurally equal to the intended value (so a null actual matches only a
null intent); a read with transport status other than 200 yields
actual = null, hence match = false whenever the intended value is non-null;
the loopback checks never raise for any returned status or body, but the
hostname check raises StopIteration when a 200 response carries an empty
body (and AttributeError on a non-dict body), so checks are exception-free
only up to that hostname projection. -/
theorem C1_theorem (net : DevNet) (i : Val) (lbs : List Val)
    (hresp : ∀ p, ∃ r, net.get p = Except.ok r)
    (hlbs : ∀ lb ∈ lbs, (∃ n, lb.index "name" = Except.ok n) ∧
      ∃ ip, lb.index "ip" = Except.ok ip) :
    (∀ c, PushConfig.check_hostname net i = Except.ok c →
      c.match_ = decide (i = c.actual) ∧
      (c.http ≠ 200 → c.actual = Val.null ∧ (i ≠ Val.null → c.match_ = false))) ∧
    (∃ cs, PushConfig.check_loopbacksL net lbs = Except.ok cs ∧
      ∀ c ∈ cs, c.match_ = decide (c.intent = c.actual) ∧
        (c.http ≠ 200 → c.actual = Val.null)) ∧
    (∀ r, net.get "Cisco-IOS-XE-native:native/hostname" = Except.ok r → r.status = 200 →
      r.text = "" → PushConfig.check_hostname net i = Except.error "StopIteration") := by
  refine ⟨?_, ?_, ?_⟩
  · intro c h
    obtain ⟨r, hr⟩ := hresp "Cisco-IOS-XE-native:native/hostname"
    simp only [PushConfig.check_hostname, PushConfig.rc_get, hr, exbind_ok, expure_eq] at h
    split at h
    · rename_i h200
      cases hb : PushConfig.firstValue (PushConfig.rcBody r) with
      | error e => rw [hb] at h; simp at h
      | ok v =>
        rw [hb] at h
        simp only [exbind_ok, expure_eq, Except.ok.injEq] at h
        subst h
        exact ⟨rfl, fun hne => absurd h200 hne⟩
    · rename_i h200
      simp only [expure_eq, Except.ok.injEq] at h
      subst h
      refine ⟨rfl, fun _ => ⟨rfl, fun hi => ?_⟩⟩
      simp [decide_eq_false hi]
  · induction lbs with
    | nil => exact ⟨[], rfl, by intro c hc; cases hc⟩
    | cons lb rest ih =>
      obtain ⟨⟨n, hn⟩, ip, hip⟩ := hlbs lb (by simp)
      obtain ⟨r, hr⟩ := hresp ("ietf-interfaces:interfaces/interface=" ++ ("Loopback" ++ n.pyStr))
      obtain ⟨c0, hc0, _, hcm, hch⟩ := check_loopback1_props net lb n ip r hn hip hr
      obtain ⟨cs, hcs, hprop⟩ := ih (fun lb' h' => hlbs lb' (by simp [h']))
      refine ⟨c0 :: cs, ?_, ?_⟩
      · simp only [PushConfig.check_loopbacksL, hc0, exbind_ok, hcs, expure_eq]
      · intro c hc
        rcases List.mem_cons.mp hc with hc | hc
        · subst hc; exact ⟨hcm, hch⟩
        · exact hprop c hc
  · intro r hr h200 htext
    simp [PushConfig.check_hostname, PushConfig.rc_get, PushConfig.rcBody, hr, htext, h200,
      PushConfig.firstValue]

/-- C1 (witness): on a device answering the hostname read with 200 and the
intended value BR1, the hostname check record matches iff intent equals
actual, which holds here. -/
theorem C1_witness :
    (⟨"hostname", Val.str "BR1", Val.str "BR1", 200, true⟩ : PushConfig.Check).match_ =
      decide (Val.str "BR1" =
        (⟨"hostname", Val.str "BR1", Val.str "BR1", 200, true⟩ : PushConfig.Check).actual) ∧
    ((⟨"hostname", Val.str "BR1", Val.str "BR1", 200, true⟩ : PushConfig.Check).http ≠ 200 →
      (⟨"hostname", Val.str "BR1", Val.str "BR1", 200, true⟩ : PushConfig.Check).actual =
        Val.null ∧ (Val.str "BR1" ≠ Val.null →
        (⟨"hostname", Val.str "BR1", Val.str "BR1", 200, true⟩ : PushConfig.Check).match_ =
          false)) :=
  (C1_theorem okNet (Val.str "BR1")
    [Val.obj [("name", Val.int 100), ("ip", Val.str "10.0.0.1"),
      ("mask", Val.str "255.255.255.255")]]
    (fun _ => ⟨_, rfl⟩)
    (by
      intro lb h
      simp only [List.mem_singleton] at h
      subst h
      exact ⟨⟨Val.int 100, rfl⟩, Val.str "10.0.0.1", rfl⟩)).1
    ⟨"hostname", Val.str "BR1", Val.str "BR1", 200, true⟩ rfl

/-- C5: for every intent whose system and ntp sections set no keys, the
native-config document is empty and the apply loop skips the native PATCH;
with no loopback entries either, no write operation is issued at all and
the apply phase succeeds with an empty outcome list on any device. -/
theorem C5_theorem (intent : Val) (net : DevNet)
    (hs : intent.get "system" (Val.obj []) = Except.ok (Val.obj []))
    (hn : intent.get "ntp" (Val.obj []) = Except.ok (Val.obj [])) :
    PushConfig.build_native_payload intent =
      Except.ok (Val.obj [("Cisco-IOS-XE-native:native", Val.obj [])]) ∧
    PushConfig.applySteps net (Val.obj [("Cisco-IOS-XE-native:native", Val.obj [])])
      (Val.arr []) = Except.ok [] := by
  constructor
  · simp only [PushConfig.build_native_payload, hs, hn, exbind_ok]
    rfl
  · rfl

/-- C5 (witness): the empty intent has empty system and ntp sections, its
native document is empty, and the apply phase issues nothing. -/
theorem C5_witness :
    PushConfig.build_native_payload (Val.obj []) =
      Except.ok (Val.obj [("Cisco-IOS-XE-native:native", Val.obj [])]) ∧
    PushConfig.applySteps okNet (Val.obj [("Cisco-IOS-XE-native:native", Val.obj [])])
      (Val.arr []) = Except.ok [] :=
  C5_theorem (Val.obj []) okNet rfl rfl

/-- C9: in the Meraki apply step, the keyword arguments of the update call
are exactly the diff entries whose desired value is not None: every entry
sent is non-null, a null-valued diff entry is never sent, and every
non-null diff entry is sent. -/
theorem C9_theorem (current : Val) (desired changes : List (String × Val))
    (_h : MerakiConfig.changesOf current desired = Except.ok changes) :
    (∀ kv ∈ MerakiConfig.updatePayload changes, kv.2 ≠ Val.null) ∧
    (∀ k, (k, Val.null) ∈ changes → (k, Val.null) ∉ MerakiConfig.updatePayload changes) ∧
    (∀ k v, (k, v) ∈ changes → v ≠ Val.null → (k, v) ∈ MerakiConfig.updatePayload changes) := by
  refine ⟨?_, ?_, ?_⟩
  · intro kv hkv
    have := List.of_mem_filter hkv
    simpa using this
  · intro k hk hmem
    have := List.of_mem_filter hmem
    simp at this
  · intro k v hkv hv
    exact List.mem_filter.mpr ⟨hkv, by simpa using hv⟩

/-- C9 (witness): an SSID intent without a psk yields desired psk = None;
against a device whose current psk is set, the diff records psk as None,
and that entry is excluded from the update call. -/
theorem C9_witness :
    ("psk", Val.null) ∉ MerakiConfig.updatePayload [("psk", Val.null)] :=
  (C9_theorem
    (Val.obj [("name", Val.str "Lab"), ("enabled", Val.bool true),
      ("authMode", Val.str "psk"), ("psk", Val.str "old-secret")])
    [("name", Val.str "Lab"), ("enabled", Val.bool true), ("authMode", Val.str "psk"),
      ("psk", Val.null), ("ipAssignmentMode", Val.null)]
    [("psk", Val.null)] rfl).2.1 "psk" (by simp)

/-- C7 (counterexample): on a 200 response whose body is not JSON, rc_get of
push_config.py hands its callers the non-empty document carrying the raw
text under _raw, and the hostname check projects that raw text out as the
actual device value, mistaking the malformed body for device data; this
refutes that the document handed to callers is empty and that a malformed
body is never taken for real data. -/
theorem C7_counterexample :
    PushConfig.rc_get rawNet "Cisco-IOS-XE-native:native/hostname" =
      Except.ok (200, Val.obj [("_raw", Val.str "<html>oops")]) ∧
    PushConfig.check_hostname rawNet (Val.str "BR1") =
      Except.ok ⟨"hostname", Val.str "BR1", Val.str "<html>oops", 200, false⟩ := ⟨rfl, rfl⟩

/-- C7 (amended): in the collectors, a below-400 response with a
non-parseable body is treated as no data (data = None, the inventory
collector recording the error Invalid JSON) and downstream projections see
no device data; in push_config.py, rc_get instead yields the non-empty
document mapping _raw to the response text, which is not fatal but is
projected by the hostname check as an actual value. -/
theorem C7_theorem (net : DevNet) (p : String) (r : Resp)
    (hr : net.get p = Except.ok r) (hok : r.isOk = true) (hj : r.json = Option.none)
    (ht : r.text ≠ "") :
    CollectInventory.rc_get net p = (Val.null, some r.status, Val.str "Invalid JSON") ∧
    CollectDeviceInfo.rc_get net p = (Val.null, some r.status) ∧
    PushConfig.rc_get net p = Except.ok (r.status, Val.obj [("_raw", Val.str r.text)]) ∧
    (p = "Cisco-IOS-XE-native:native/hostname" →
      CollectInventory.get_hostname net = Except.ok Val.null) := by
  refine ⟨?_, ?_, ?_, ?_⟩
  · simp [CollectInventory.rc_get, hr, hok, hj]
  · simp [CollectDeviceInfo.rc_get, hr, hok, hj]
  · simp [PushConfig.rc_get, PushConfig.rcBody, hr, hj, ht]
  · intro hp
    subst hp
    simp [CollectInventory.get_hostname, CollectInventory.rc_get, hr, hok, hj, Val.truthy]

/-- C7 (witness): a device answering 200 with an HTML error page exercises
the amended claim at a concrete input. -/
theorem C7_witness :
    CollectInventory.rc_get rawNet "Cisco-IOS-XE-native:native/hostname" =
      (Val.null, some 200, Val.str "Invalid JSON") ∧
    CollectDeviceInfo.rc_get rawNet "Cisco-IOS-XE-native:native/hostname" =
      (Val.null, some 200) ∧
    PushConfig.rc_get rawNet "Cisco-IOS-XE-native:native/hostname" =
      Except.ok (200, Val.obj [("_raw", Val.str "<html>oops")]) ∧
    ("Cisco-IOS-XE-native:native/hostname" = "Cisco-IOS-XE-native:native/hostname" →
      CollectInventory.get_hostname rawNet = Except.ok Val.null) :=
  C7_theorem rawNet "Cisco-IOS-XE-native:native/hostname" ⟨200, "<html>oops", Option.none⟩
    rfl rfl rfl (by decide)

theorem lbSteps_eq_execOps (net : DevNet) (lbs : List Val) (ops : List (String × PushConfig.WriteOp))
    (h : PushConfig.lbOps lbs = Except.ok ops) :
    PushConfig.lbSteps net lbs = PushConfig.execOps net ops := by
  induction lbs generalizing ops with
  | nil =>
    simp only [PushConfig.lbOps, Except.ok.injEq] at h
    subst h
    rfl
  | cons lb rest ih =>
    cases hnm : lb.index "name" with
    | error e =>
      simp only [PushConfig.lbOps, hnm, exbind_err] at h
      exact Except.noConfusion h
    | ok nm =>
      cases hpl : PushConfig.build_ietf_loopback_payload lb with
      | error e =>
        simp only [PushConfig.lbOps, hnm, hpl, exbind_ok, exbind_err] at h
        exact Except.noConfusion h
      | ok pl =>
        cases hro : PushConfig.lbOps rest with
        | error e =>
          simp only [PushConfig.lbOps, hnm, hpl, hro, exbind_ok, exbind_err] at h
          exact Except.noConfusion h
        | ok rest' =>
          simp only [PushConfig.lbOps, hnm, hpl, hro, exbind_ok, expure_eq,
            Except.ok.injEq] at h
          subst h
          simp only [PushConfig.lbSteps, PushConfig.execOps, hnm, hpl, exbind_ok,
            PushConfig.restconf_put_interface, ih rest' hro]

theorem applySteps_eq_execOps (net : DevNet) (np lbsV : Val)
    (ops : List (String × PushConfig.WriteOp))
    (h : PushConfig.opsFrom np lbsV = Except.ok ops) :
    PushConfig.applySteps net np lbsV = PushConfig.execOps net ops := by
  cases hnat : np.index "Cisco-IOS-XE-native:native" with
  | error e =>
    simp only [PushConfig.opsFrom, hnat, exbind_err] at h
    exact Except.noConfusion h
  | ok native =>
    cases hit : lbsV.iter with
    | error e =>
      simp only [PushConfig.opsFrom, hnat, hit, exbind_ok, exbind_err] at h
      exact Except.noConfusion h
    | ok lbs =>
      cases hlo : PushConfig.lbOps lbs with
      | error e =>
        simp only [PushConfig.opsFrom, hnat, hit, hlo, exbind_ok, exbind_err] at h
        exact Except.noConfusion h
      | ok rest =>
        simp only [PushConfig.opsFrom, hnat, hit, hlo, exbind_ok, expure_eq,
          Except.ok.injEq] at h
        subst h
        by_cases htr : native.truthy
        · simp only [PushConfig.applySteps, hnat, hit, exbind_ok, htr, if_pos,
            PushConfig.restconf_patch_native, lbSteps_eq_execOps net lbs rest hlo,
            List.singleton_append, PushConfig.execOps]
          cases hw : net.write "PATCH" "Cisco-IOS-XE-native:native" np <;> simp [hw]
        · simp only [PushConfig.applySteps, hnat, hit, exbind_ok, htr, if_neg,
            Bool.false_eq_true, lbSteps_eq_execOps net lbs rest hlo, List.nil_append]
          cases he : PushConfig.execOps net rest <;> simp [he]

/-- C4 (counterexample): for the same SSID intent, the Meraki update
payload differs between a device whose current SSID state already matches
(no update is built) and a device with an empty current state (three fields
are written): the Meraki write document is not a pure function of intent
and is built only after reading the current state, refuting purity for the
Meraki path. -/
theorem C4_counterexample :
    MerakiConfig.desiredOf ssidSpecW = Except.ok desiredW ∧
    MerakiConfig.changesOf currentMatchW desiredW = Except.ok [] ∧
    MerakiConfig.changesOf (Val.obj []) desiredW =
      Except.ok [("name", Val.str "LabWifi"), ("enabled", Val.bool true),
        ("authMode", Val.str "psk")] ∧
    MerakiConfig.updatePayload [] ≠
      MerakiConfig.updatePayload [("name", Val.str "LabWifi"), ("enabled", Val.bool true),
        ("authMode", Val.str "psk")] := by
  refine ⟨rfl, rfl, rfl, ?_⟩
  decide

/-- C4 (amended): the RESTCONF write operations are a pure function of the
intent-derived payloads: the labelled operation sequence is computed with
no device access, and the apply phase against any transport equals the
generic executor run over that sequence, so two devices receive identical
native and loopback documents; the Meraki path instead reads the current
SSID state first and sends the diff of desired against current (filtered of
nulls), an explicitly state-dependent write. -/
theorem C4_theorem (np lbsV : Val) (ops : List (String × PushConfig.WriteOp))
    (hops : PushConfig.opsFrom np lbsV = Except.ok ops)
    (current : Val) (ckvs : List (String × Val)) (desired : List (String × Val))
    (hcur : current = Val.obj ckvs) :
    (∀ net : DevNet, PushConfig.applySteps net np lbsV = PushConfig.execOps net ops) ∧
    MerakiConfig.changesOf current desired =
      Except.ok (desired.filter
        (fun kv => decide (((lookupK kv.1 ckvs).getD Val.null) ≠ kv.2))) := by
  constructor
  · intro net
    exact applySteps_eq_execOps net np lbsV ops hops
  · subst hcur
    induction desired with
    | nil => rfl
    | cons kv rest ih =>
      obtain ⟨k, v⟩ := kv
      simp only [MerakiConfig.changesOf, Val.getN, Val.get, exbind_ok, ih, List.filter]
      by_cases hne : ((lookupK k ckvs).getD Val.null) ≠ v
      · simp [hne]
      · simp [hne]

/-- C4 (witness): a hostname-only intent yields the single native PATCH
operation on any device, and the diff against an empty current state keeps
the non-null desired entries. -/
theorem C4_witness :
    PushConfig.applySteps okNet (Val.obj [("Cisco-IOS-XE-native:native",
        Val.obj [("hostname", Val.str "BR1")])]) (Val.arr []) =
      PushConfig.execOps okNet [("native-patch", PushConfig.WriteOp.mk "PATCH"
        "Cisco-IOS-XE-native:native" (Val.obj [("Cisco-IOS-XE-native:native",
          Val.obj [("hostname", Val.str "BR1")])]))] ∧
    MerakiConfig.changesOf (Val.obj []) desiredW =
      Except.ok (desiredW.filter
        (fun kv => decide (((lookupK kv.1 []).getD Val.null) ≠ kv.2))) :=
  ⟨(C4_theorem (Val.obj [("Cisco-IOS-XE-native:native", Val.obj [("hostname", Val.str "BR1")])])
      (Val.arr [])
      [("native-patch", PushConfig.WriteOp.mk "PATCH" "Cisco-IOS-XE-native:native"
        (Val.obj [("Cisco-IOS-XE-native:native", Val.obj [("hostname", Val.str "BR1")])]))]
      rfl (Val.obj []) [] desiredW rfl).1 okNet,
   (C4_theorem (Val.obj [("Cisco-IOS-XE-native:native", Val.obj [("hostname", Val.str "BR1")])])
      (Val.arr [])
      [("native-patch", PushConfig.WriteOp.mk "PATCH" "Cisco-IOS-XE-native:native"
        (Val.obj [("Cisco-IOS-XE-native:native", Val.obj [("hostname", Val.str "BR1")])]))]
      rfl (Val.obj []) [] desiredW rfl).2⟩

theorem execOps_total (net : DevNet) (ops : List (String × PushConfig.WriteOp))
    (hw : ∀ m p d, ∃ r, net.write m p d = Except.ok r) :
    ∃ steps, PushConfig.execOps net ops = Except.ok steps ∧ steps.length = ops.length ∧
      ∀ i, i < ops.length → ∃ o r, ops[i]? = some o ∧
        net.write o.2.method o.2.path o.2.doc = Except.ok r ∧
        steps[i]? = some (PushConfig.stepOf o.1 r) := by
  induction ops with
  | nil =>
    exact ⟨[], rfl, rfl, fun i hi => absurd hi (Nat.not_lt_zero i)⟩
  | cons lo rest ih =>
    obtain ⟨r, hr⟩ := hw lo.2.method lo.2.path lo.2.doc
    obtain ⟨steps, hst, hlen, hget⟩ := ih
    refine ⟨PushConfig.stepOf lo.1 r :: steps, ?_, by simp [hlen], ?_⟩
    · simp only [PushConfig.execOps, hr, hst, exbind_ok, expure_eq]
    · intro i hi
      cases i with
      | zero => exact ⟨lo, r, by simp, hr, by simp⟩
      | succ n =>
        obtain ⟨o, r', h1, h2, h3⟩ := hget n (by simpa using hi)
        exact ⟨o, r', by simpa using h1, h2, by simpa using h3⟩

/-- C3 (counterexample): with three write operations (a native PATCH and two
loopback PUTs) against a device whose transport raises on the second
operation, the apply loop raises the transport error past the per-operation
boundary: no outcome list is produced at all, so neither operation 1 nor
operation 3 has a recorded outcome and no error-with-null-status record
exists, refuting the transport-error half of the claim. -/
theorem C3_counterexample :
    PushConfig.build_native_payload intentTwoLb =
      Except.ok (Val.obj [("Cisco-IOS-XE-native:native",
        Val.obj [("hostname", Val.str "BR1")])]) ∧
    PushConfig.applySteps failOp2Net
      (Val.obj [("Cisco-IOS-XE-native:native", Val.obj [("hostname", Val.str "BR1")])])
      (Val.arr [
        Val.obj [("name", Val.int 100), ("ip", Val.str "10.0.0.1"),
          ("mask", Val.str "255.255.255.255")],
        Val.obj [("name", Val.int 200), ("ip", Val.str "10.0.0.2"),
          ("mask", Val.str "255.255.255.255")]]) =
      Except.error "ConnectionError" := ⟨rfl, rfl⟩

/-- C3 (amended): the Applier issues the built operations in input order and,
as long as every write returns a response (no transport exception), records
exactly one outcome per operation in original order — a non-2xx protocol
status is captured in its outcome record (ok = false, error = body text) and
execution continues to the next operation; a transport error, however, is
raised past the per-operation boundary and aborts the remaining
operations with no outcome recorded. -/
theorem C3_theorem (net : DevNet) (np lbsV : Val)
    (ops : List (String × PushConfig.WriteOp))
    (hops : PushConfig.opsFrom np lbsV = Except.ok ops)
    (hw : ∀ m p d, ∃ r, net.write m p d = Except.ok r) :
    ∃ steps, PushConfig.applySteps net np lbsV = Except.ok steps ∧
      steps.length = ops.length ∧
      ∀ i, i < ops.length → ∃ o r, ops[i]? = some o ∧
        net.write o.2.method o.2.path o.2.doc = Except.ok r ∧
        steps[i]? = some (PushConfig.stepOf o.1 r) := by
  rw [applySteps_eq_execOps net np lbsV ops hops]
  exact execOps_total net ops hw

/-- C3 (witness): a hostname PATCH followed by a failing-status loopback PUT
and a succeeding one still yields three outcomes in order on a transport
that always returns. -/
theorem C3_witness :
    ∃ steps, PushConfig.applySteps okNet
      (Val.obj [("Cisco-IOS-XE-native:native", Val.obj [("hostname", Val.str "BR1")])])
      (Val.arr [Val.obj [("name", Val.int 100), ("ip", Val.str "10.0.0.1"),
        ("mask", Val.str "255.255.255.255")]]) = Except.ok steps ∧
      steps.length = ([("native-patch", PushConfig.WriteOp.mk "PATCH"
        "Cisco-IOS-XE-native:native" (Val.obj [("Cisco-IOS-XE-native:native",
          Val.obj [("hostname", Val.str "BR1")])])),
        ("put-Loopback100", PushConfig.WriteOp.mk "PUT"
          "ietf-interfaces:interfaces/interface=Loopback100"
          (Val.obj [("ietf-interfaces:interface", Val.obj [
            ("name", Val.str "Loopback100"),
            ("type", Val.str "iana-if-type:softwareLoopback"),
            ("enabled", Val.bool true),
            ("ietf-ip:ipv4", Val.obj [("address", Val.arr [
              Val.obj [("ip", Val.str "10.0.0.1"),
                ("netmask", Val.str "255.255.255.255")]])])])]))] :
        List (String × PushConfig.WriteOp)).length ∧
      ∀ i, i < ([("native-patch", PushConfig.WriteOp.mk "PATCH"
        "Cisco-IOS-XE-native:native" (Val.obj [("Cisco-IOS-XE-native:native",
          Val.obj [("hostname", Val.str "BR1")])])),
        ("put-Loopback100", PushConfig.WriteOp.mk "PUT"
          "ietf-interfaces:interfaces/interface=Loopback100"
          (Val.obj [("ietf-interfaces:interface", Val.obj [
            ("name", Val.str "Loopback100"),
            ("type", Val.str "iana-if-type:softwareLoopback"),
            ("enabled", Val.bool true),
            ("ietf-ip:ipv4", Val.obj [("address", Val.arr [
              Val.obj [("ip", Val.str "10.0.0.1"),
                ("netmask", Val.str "255.255.255.255")]])])])]))] :
        List (String × PushConfig.WriteOp)).length →
        ∃ o r, ([("native-patch", PushConfig.WriteOp.mk "PATCH"
          "Cisco-IOS-XE-native:native" (Val.obj [("Cisco-IOS-XE-native:native",
            Val.obj [("hostname", Val.str "BR1")])])),
          ("put-Loopback100", PushConfig.WriteOp.mk "PUT"
            "ietf-interfaces:interfaces/interface=Loopback100"
            (Val.obj [("ietf-interfaces:interface", Val.obj [
              ("name", Val.str "Loopback100"),
              ("type", Val.str "iana-if-type:softwareLoopback"),
              ("enabled", Val.bool true),
              ("ietf-ip:ipv4", Val.obj [("address", Val.arr [
                Val.obj [("ip", Val.str "10.0.0.1"),
                  ("netmask", Val.str "255.255.255.255")]])])])]))] :
          List (String × PushConfig.WriteOp))[i]? = some o ∧
          okNet.write o.2.method o.2.path o.2.doc = Except.ok r ∧
          steps[i]? = some (PushConfig.stepOf o.1 r) :=
  C3_theorem okNet
    (Val.obj [("Cisco-IOS-XE-native:native", Val.obj [("hostname", Val.str "BR1")])])
    (Val.arr [Val.obj [("name", Val.int 100), ("ip", Val.str "10.0.0.1"),
      ("mask", Val.str "255.255.255.255")]])
    _ rfl (fun _ _ _ => ⟨_, rfl⟩)

theorem exMapM_total {α β : Type} (f : α → Except String β) (l : List α)
    (h : ∀ x ∈ l, ∃ y, f x = Except.ok y) :
    ∃ r, PushConfig.exMapM f l = Except.ok r ∧ r.length = l.length ∧
      ∀ i, i < l.length → ∃ x y, l[i]? = some x ∧ f x = Except.ok y ∧ r[i]? = some y := by
  induction l with
  | nil => exact ⟨[], rfl, rfl, fun i hi => absurd hi (Nat.not_lt_zero i)⟩
  | cons x rest ih =>
    obtain ⟨y, hy⟩ := h x (by simp)
    obtain ⟨r, hr, hlen, hget⟩ := ih (fun z hz => h z (by simp [hz]))
    refine ⟨y :: r, ?_, by simp [hlen], ?_⟩
    · simp only [PushConfig.exMapM, hy, hr, exbind_ok, expure_eq]
    · intro i hi
      cases i with
      | zero => exact ⟨x, y, by simp, hy, by simp⟩
      | succ n =>
        obtain ⟨x', y', h1, h2, h3⟩ := hget n (by simpa using hi)
        exact ⟨x', y', by simpa using h1, h2, by simpa using h3⟩

theorem setK_keys (l : List (String × Val)) (k : String) (v : Val)
    (h : k ∈ l.map Prod.fst) :
    (CollectInventory.setK l k v).map Prod.fst = l.map Prod.fst := by
  induction l with
  | nil => simp at h
  | cons kv rest ih =>
    by_cases hk : kv.1 = k
    · obtain ⟨k', v'⟩ := kv
      simp only at hk
      subst hk
      simp [CollectInventory.setK]
    · obtain ⟨k', v'⟩ := kv
      simp only at hk
      simp only [List.map_cons, List.mem_cons] at h
      rcases h with h | h
      · exact absurd h.symm hk
      · simp [CollectInventory.setK, hk, ih h]

theorem collect_total_keys (dev : Val) (net : DevNet) (now : String) (nv hv : Val)
    (hh : PushConfig.devHeader dev = Except.ok (nv, hv)) :
    ∃ kvs e, CollectInventory.collect_for_device dev net now = Except.ok (Val.obj kvs, e) ∧
      kvs.map Prod.fst = ["device_name", "host", "hostname", "version", "serial_number",
        "interfaces", "interfaces_total", "interfaces_up", "interfaces_down",
        "collected_at"] := by
  have kstep : ∀ (l : List (String × Val)) (k : String) (v : Val),
      l.map Prod.fst = ["device_name", "host", "hostname", "version", "serial_number",
        "interfaces", "interfaces_total", "interfaces_up", "interfaces_down",
        "collected_at"] →
      k ∈ ["device_name", "host", "hostname", "version", "serial_number", "interfaces",
        "interfaces_total", "interfaces_up", "interfaces_down", "collected_at"] →
      (CollectInventory.setK l k v).map Prod.fst =
        ["device_name", "host", "hostname", "version", "serial_number", "interfaces",
          "interfaces_total", "interfaces_up", "interfaces_down", "collected_at"] := by
    intro l k v hl hk
    rw [setK_keys l k v (by rw [hl]; exact hk), hl]
  have hbase : (CollectInventory.baseP nv hv now).map Prod.fst =
      ["device_name", "host", "hostname", "version", "serial_number", "interfaces",
        "interfaces_total", "interfaces_up", "interfaces_down", "collected_at"] := rfl
  simp only [CollectInventory.collect_for_device, hh, exbind_ok]
  cases h1 : CollectInventory.get_hostname net with
  | error e => exact ⟨_, _, rfl, hbase⟩
  | ok v1 =>
    have k1 := kstep _ "hostname" v1 hbase (by simp)
    cases h2 : CollectInventory.get_version net with
    | error e => exact ⟨_, _, rfl, k1⟩
    | ok v2 =>
      have k2 := kstep _ "version" v2 k1 (by simp)
      cases h3 : CollectInventory.get_interfaces_summary net with
      | error e => exact ⟨_, _, rfl, k2⟩
      | ok ifr =>
        have k3 := kstep _ "interfaces" (Val.arr ifr.1) k2 (by simp)
        have k4 := kstep _ "interfaces_total" (Val.int ifr.2.1) k3 (by simp)
        have k5 := kstep _ "interfaces_up" (Val.int ifr.2.2.1) k4 (by simp)
        have k6 := kstep _ "interfaces_down" (Val.int ifr.2.2.2) k5 (by simp)
        cases h4 : CollectInventory.get_serial_number net with
        | error e => exact ⟨_, _, rfl, k6⟩
        | ok sn => exact ⟨_, _, rfl, kstep _ "serial_number" sn k6 (by simp)⟩

/-- C10: for a device descriptor with the required host/username/password
fields, collecting device facts returns a (payload, error) pair without
raising; the payload always carries the full fixed key set with its
defaults; and when a collector stage raises internally, the fields gathered
before the failure are preserved and the exception text is returned as the
error (shown for a failure at the first stage, which returns the untouched
defaults, and at the second stage, which preserves the gathered hostname). -/
theorem C10_theorem (dev : Val) (net : DevNet) (now : String) (nv hv : Val)
    (hh : PushConfig.devHeader dev = Except.ok (nv, hv)) :
    (∃ kvs e, CollectInventory.collect_for_device dev net now =
      Except.ok (Val.obj kvs, e) ∧
      kvs.map Prod.fst = ["device_name", "host", "hostname", "version", "serial_number",
        "interfaces", "interfaces_total", "interfaces_up", "interfaces_down",
        "collected_at"]) ∧
    (∀ e, CollectInventory.get_hostname net = Except.error e →
      CollectInventory.collect_for_device dev net now =
        Except.ok (Val.obj (CollectInventory.baseP nv hv now), some e)) ∧
    (∀ v1 e, CollectInventory.get_hostname net = Except.ok v1 →
      CollectInventory.get_version net = Except.error e →
      CollectInventory.collect_for_device dev net now =
        Except.ok (Val.obj (CollectInventory.setK (CollectInventory.baseP nv hv now)
          "hostname" v1), some e)) := by
  refine ⟨collect_total_keys dev net now nv hv hh, ?_, ?_⟩
  · intro e h1
    simp [CollectInventory.collect_for_device, hh, h1]
  · intro v1 e h1 h2
    simp [CollectInventory.collect_for_device, hh, h1, h2]

/-- C10 (witness): collecting from a healthy device with a well-formed
descriptor returns a payload holding exactly the fixed key set. -/
theorem C10_witness :
    ∃ kvs e, CollectInventory.collect_for_device devA okNet "2026-10-12 00:00:00" =
      Except.ok (Val.obj kvs, e) ∧
      kvs.map Prod.fst = ["device_name", "host", "hostname", "version", "serial_number",
        "interfaces", "interfaces_total", "interfaces_up", "interfaces_down",
        "collected_at"] :=
  (C10_theorem devA okNet "2026-10-12 00:00:00" (Val.str "r1") (Val.str "https://r1.lab")
    rfl).1

/-- C2 (counterexample): a fleet of three devices where the transport of
the second device raises on the native PATCH makes the whole run raise: no
report is produced at all, so the error of the second device is not
captured as data and the first and third devices report nothing, refuting
the isolation claim for the push_config fleet loop. -/
theorem C2_counterexample :
    PushConfig.fleetRun true false intentTwoLb
      [(devA, okNet), (devA, downNet), (devA, okNet)] =
      Except.error "ConnectionError" := rfl

/-- C2 (amended): the collect_inventory fleet run yields one entry per
device in inventory order whenever every descriptor carries the required
header fields — transport failures and in-collection exceptions are
captured inside each entry by the per-device try block and do not disturb
later devices; the push_config fleet run yields one entry per device in
inventory order only when no per-device processing raises, since an
exception while processing one device (for example an unreachable transport
during apply or check) propagates and aborts the remaining devices. -/
theorem C2_theorem (devs : List (Val × DevNet)) (now : String)
    (hcred : ∀ dn ∈ devs, ∃ nv hv, PushConfig.devHeader dn.1 = Except.ok (nv, hv))
    (applyF checkF : Bool) (intent np lbs0 lbsV : Val) (pdevs : List (Val × DevNet))
    (hnp : PushConfig.build_native_payload intent = Except.ok np)
    (hlb0 : intent.get "loopbacks" (Val.arr []) = Except.ok lbs0)
    (hlbv : (if lbs0.truthy then lbs0 else Val.arr []) = lbsV)
    (hp : ∀ dn ∈ pdevs, ∃ s,
      PushConfig.processDevice applyF checkF intent np lbsV dn.1 dn.2 = Except.ok s) :
    (∃ rep, CollectInventory.fleet devs now = Except.ok rep ∧ rep.length = devs.length ∧
      ∀ i, i < devs.length → ∃ dn pe, devs[i]? = some dn ∧
        CollectInventory.collect_for_device dn.1 dn.2 now = Except.ok pe ∧
        rep[i]? = some pe) ∧
    (∃ rep, PushConfig.fleetRun applyF checkF intent pdevs = Except.ok rep ∧
      rep.length = pdevs.length ∧
      ∀ i, i < pdevs.length → ∃ dn s, pdevs[i]? = some dn ∧
        PushConfig.processDevice applyF checkF intent np lbsV dn.1 dn.2 = Except.ok s ∧
        rep[i]? = some s) := by
  constructor
  · exact exMapM_total _ devs (by
      intro dn hdn
      obtain ⟨nv, hv, hh⟩ := hcred dn hdn
      obtain ⟨kvs, e, hc, _⟩ := collect_total_keys dn.1 dn.2 now nv hv hh
      exact ⟨(Val.obj kvs, e), hc⟩)
  · have hrun : PushConfig.fleetRun applyF checkF intent pdevs =
        PushConfig.exMapM (fun dn =>
          PushConfig.processDevice applyF checkF intent np lbsV dn.1 dn.2) pdevs := by
      simp only [PushConfig.fleetRun, hnp, hlb0, exbind_ok, hlbv]
    rw [hrun]
    exact exMapM_total _ pdevs hp

/-- C2 (witness): a one-device dry run (neither apply nor check) produces a
one-entry report for that device. -/
theorem C2_witness :
    (∃ rep, CollectInventory.fleet [(devA, okNet)] "2026-10-12 00:00:00" =
      Except.ok rep ∧ rep.length = [(devA, okNet)].length ∧
      ∀ i, i < [(devA, okNet)].length → ∃ dn pe, [(devA, okNet)][i]? = some dn ∧
        CollectInventory.collect_for_device dn.1 dn.2 "2026-10-12 00:00:00" =
          Except.ok pe ∧ rep[i]? = some pe) ∧
    (∃ rep, PushConfig.fleetRun false false intentTwoLb [(devA, okNet)] = Except.ok rep ∧
      rep.length = [(devA, okNet)].length ∧
      ∀ i, i < [(devA, okNet)].length → ∃ dn s, [(devA, okNet)][i]? = some dn ∧
        PushConfig.processDevice false false intentTwoLb
          (Val.obj [("Cisco-IOS-XE-native:native", Val.obj [("hostname", Val.str "BR1")])])
          (Val.arr [
            Val.obj [("name", Val.int 100), ("ip", Val.str "10.0.0.1"),
              ("mask", Val.str "255.255.255.255")],
            Val.obj [("name", Val.int 200), ("ip", Val.str "10.0.0.2"),
              ("mask", Val.str "255.255.255.255")]]) dn.1 dn.2 = Except.ok s ∧
        rep[i]? = some s) :=
  C2_theorem [(devA, okNet)] "2026-10-12 00:00:00"
    (by
      intro dn hdn
      simp only [List.mem_singleton] at hdn
      subst hdn
      exact ⟨Val.str "r1", Val.str "https://r1.lab", rfl⟩)
    false false intentTwoLb
    (Val.obj [("Cisco-IOS-XE-native:native", Val.obj [("hostname", Val.str "BR1")])])
    (Val.arr [
      Val.obj [("name", Val.int 100), ("ip", Val.str "10.0.0.1"),
        ("mask", Val.str "255.255.255.255")],
      Val.obj [("name", Val.int 200), ("ip", Val.str "10.0.0.2"),
        ("mask", Val.str "255.255.255.255")]])
    (Val.arr [
      Val.obj [("name", Val.int 100), ("ip", Val.str "10.0.0.1"),
        ("mask", Val.str "255.255.255.255")],
      Val.obj [("name", Val.int 200), ("ip", Val.str "10.0.0.2"),
        ("mask", Val.str "255.255.255.255")]])
    [(devA, okNet)] rfl rfl rfl
    (by
      intro dn hdn
      simp only [List.mem_singleton] at hdn
      subst hdn
      exact ⟨_, rfl⟩)

theorem lookupK_mem (k : String) (kvs : List (String × Val)) (v : Val)
    (h : lookupK k kvs = some v) : (k, v) ∈ kvs := by
  induction kvs with
  | nil => simp [lookupK] at h
  | cons kv rest ih =>
    obtain ⟨k', v'⟩ := kv
    simp only [lookupK] at h
    by_cases hk : k' = k
    · rw [if_pos hk] at h
      injection h with h
      subst hk
      subst h
      exact List.mem_cons_self _ _
    · rw [if_neg hk] at h
      exact List.mem_cons_of_mem _ (ih h)

theorem mem_joinComma (piece : List Char) (pieces : List (List Char))
    (h : piece ∈ pieces) : piece <:+: joinComma pieces := by
  induction pieces with
  | nil => simp at h
  | cons x rest ih =>
    rcases List.mem_cons.mp h with h | h
    · subst h
      cases rest with
      | nil => exact List.infix_refl piece
      | cons y t => exact (List.prefix_append piece _).isInfix
    · cases rest with
      | nil => simp at h
      | cons y t =>
        refine (ih h).trans ?_
        show joinComma (y :: t) <:+: x ++ ',' :: ' ' :: joinComma (y :: t)
        have he : x ++ ',' :: ' ' :: joinComma (y :: t) =
            (x ++ [',', ' ']) ++ joinComma (y :: t) := by simp
        rw [he]
        exact (List.suffix_append _ _).isInfix

theorem mem_serializeL (item : Val) (items : List Val) (h : item ∈ items) :
    serialize item ∈ serializeL items := by
  induction items with
  | nil => simp at h
  | cons x rest ih =>
    rcases List.mem_cons.mp h with h | h
    · subst h
      show serialize item ∈ serialize item :: serializeL rest
      exact List.mem_cons_self _ _
    · show serialize item ∈ serialize x :: serializeL rest
      exact List.mem_cons_of_mem _ (ih h)

theorem mem_serializeKV (k : String) (v : Val) (kvs : List (String × Val))
    (h : (k, v) ∈ kvs) :
    ('"' :: k.data ++ '"' :: ':' :: ' ' :: serialize v) ∈ serializeKV kvs := by
  induction kvs with
  | nil => simp at h
  | cons kv rest ih =>
    obtain ⟨k0, v0⟩ := kv
    rcases List.mem_cons.mp h with h | h
    · cases h
      show _ ∈ ('"' :: k.data ++ '"' :: ':' :: ' ' :: serialize v) :: serializeKV rest
      exact List.mem_cons_self _ _
    · show _ ∈ ('"' :: k0.data ++ '"' :: ':' :: ' ' :: serialize v0) :: serializeKV rest
      exact List.mem_cons_of_mem _ (ih h)

theorem serialize_mem_arr (item : Val) (items : List Val) (h : item ∈ items) :
    serialize item <:+: serialize (Val.arr items) := by
  have h1 : serialize item <:+: joinComma (serializeL items) :=
    mem_joinComma _ _ (mem_serializeL item items h)
  have h2 : serialize (Val.arr items) = ['['] ++ joinComma (serializeL items) ++ [']'] := by
    simp [serialize]
  rw [h2]
  exact h1.trans (List.infix_append _ _ _)

theorem piece_infix_obj (k : String) (v : Val) (kvs : List (String × Val))
    (h : (k, v) ∈ kvs) :
    ('"' :: k.data ++ '"' :: ':' :: ' ' :: serialize v) <:+: serialize (Val.obj kvs) := by
  have h1 := mem_joinComma _ _ (mem_serializeKV k v kvs h)
  have h2 : serialize (Val.obj kvs) = ['{'] ++ joinComma (serializeKV kvs) ++ ['}'] := by
    simp [serialize]
  rw [h2]
  exact h1.trans (List.infix_append _ _ _)

theorem key_infix_obj (k : String) (v : Val) (kvs : List (String × Val)) (h : (k, v) ∈ kvs) :
    k.data <:+: serialize (Val.obj kvs) := by
  refine List.IsInfix.trans ?_ (piece_infix_obj k v kvs h)
  have he : ('"' :: k.data ++ '"' :: ':' :: ' ' :: serialize v) =
      ['"'] ++ k.data ++ ('"' :: ':' :: ' ' :: serialize v) := by simp
  rw [he]
  exact List.infix_append _ _ _

theorem value_infix_obj (k : String) (v : Val) (kvs : List (String × Val))
    (h : (k, v) ∈ kvs) :
    serialize v <:+: serialize (Val.obj kvs) := by
  refine List.IsInfix.trans ?_ (piece_infix_obj k v kvs h)
  have he : ('"' :: k.data ++ '"' :: ':' :: ' ' :: serialize v) =
      ('"' :: k.data ++ ['"', ':', ' ']) ++ serialize v := by simp
  rw [he]
  exact (List.suffix_append _ _).isInfix

theorem itemSerial_has_key (item sn : Val) (h : itemSerial item = some sn) :
    ∃ kvs k v, item = Val.obj kvs ∧ (k, v) ∈ kvs ∧ "serial".data <:+: k.data := by
  cases item with
  | obj kvs =>
    by_cases ha : ((lookupK "serial-number" kvs).getD Val.null).truthy
    · cases hl : lookupK "serial-number" kvs with
      | none => rw [hl] at ha; simp [Val.truthy] at ha
      | some a =>
        exact ⟨kvs, "serial-number", a, rfl, lookupK_mem _ _ _ hl, by decide⟩
    · by_cases hb : ((lookupK "serial" kvs).getD Val.null).truthy
      · cases hl : lookupK "serial" kvs with
        | none => rw [hl] at hb; simp [Val.truthy] at hb
        | some b =>
          exact ⟨kvs, "serial", b, rfl, lookupK_mem _ _ _ hl, by decide⟩
      · simp [itemSerial, ha, hb] at h
  | null => simp [itemSerial] at h
  | bool b => simp [itemSerial] at h
  | int n => simp [itemSerial] at h
  | str s => simp [itemSerial] at h
  | arr xs => simp [itemSerial] at h

theorem itemsSerial_exists (items : List Val) (sn : Val) (h : itemsSerial items = some sn) :
    ∃ item ∈ items, itemSerial item = some sn := by
  induction items with
  | nil => simp [itemsSerial] at h
  | cons x rest ih =>
    simp only [itemsSerial] at h
    cases hx : itemSerial x with
    | some s =>
      rw [hx] at h
      simp only at h
      exact ⟨x, by simp, by rw [hx]; exact h⟩
    | none =>
      rw [hx] at h
      simp only at h
      obtain ⟨it, hmem, hit⟩ := ih h
      exact ⟨it, by simp [hmem], hit⟩

theorem item_mentions_serial (item sn : Val) (h : itemSerial item = some sn) :
    "serial".data <:+: serialize item := by
  obtain ⟨kvs, k, v, hi, hmem, hk⟩ := itemSerial_has_key item sn h
  subst hi
  exact hk.trans (key_infix_obj k v kvs hmem)

theorem getD_null_some (k : String) (kvs : List (String × Val)) (v : Val)
    (h : (lookupK k kvs).getD Val.null = v) (hv : v ≠ Val.null) :
    lookupK k kvs = some v := by
  cases hl : lookupK k kvs with
  | none =>
    rw [hl] at h
    simp at h
    exact absurd h.symm hv
  | some w =>
    rw [hl] at h
    simp at h
    rw [h]

theorem invSerial_mentions (kvs : List (String × Val)) (sn : Val)
    (h : invSerial kvs = some sn) :
    "serial".data <:+: serialize (Val.obj kvs) := by
  rw [invSerial] at h
  cases heq : (lookupK "Cisco-IOS-XE-device-hardware-oper:device-inventory" kvs).getD
      Val.null with
  | arr items =>
    rw [heq] at h
    simp only [invSerialV] at h
    obtain ⟨item, hmem, hitem⟩ := itemsSerial_exists items sn h
    have hinvmem : ("Cisco-IOS-XE-device-hardware-oper:device-inventory",
        Val.arr items) ∈ kvs :=
      lookupK_mem _ _ _ (getD_null_some _ _ _ heq (by intro hc; cases hc))
    exact ((item_mentions_serial item sn hitem).trans
      (serialize_mem_arr item items hmem)).trans (value_infix_obj _ _ kvs hinvmem)
  | null => rw [heq] at h; simp [invSerialV] at h
  | bool b => rw [heq] at h; simp [invSerialV] at h
  | int n => rw [heq] at h; simp [invSerialV] at h
  | str s => rw [heq] at h; simp [invSerialV] at h
  | obj okvs => rw [heq] at h; simp [invSerialV] at h

theorem infoSerial_mentions (kvs : List (String × Val)) (sn : Val)
    (h : infoSerial kvs = some sn) :
    "serial".data <:+: serialize (Val.obj kvs) := by
  rw [infoSerial] at h
  cases heq : (lookupK "Cisco-IOS-XE-device-hardware-oper:device-information" kvs).getD
      Val.null with
  | obj ikvs =>
    rw [heq] at h
    simp only [infoSerialV] at h
    have hinfomem : ("Cisco-IOS-XE-device-hardware-oper:device-information",
        Val.obj ikvs) ∈ kvs :=
      lookupK_mem _ _ _ (getD_null_some _ _ _ heq (by intro hc; cases hc))
    exact (item_mentions_serial _ sn h).trans (value_infix_obj _ _ kvs hinfomem)
  | null => rw [heq] at h; simp [infoSerialV] at h
  | bool b => rw [heq] at h; simp [infoSerialV] at h
  | int n => rw [heq] at h; simp [infoSerialV] at h
  | str t => rw [heq] at h; simp [infoSerialV] at h
  | arr xs => rw [heq] at h; simp [infoSerialV] at h

theorem serialExtract_mentions (data sn : Val) (h : serialExtract data = some sn) :
    "serial".data <:+: lowerL (serialize data) := by
  suffices hinf : "serial".data <:+: serialize data by
    have hm := hinf.map Char.toLower
    have hser : "serial".data.map Char.toLower = "serial".data := by decide
    rw [hser] at hm
    exact hm
  cases data with
  | obj kvs =>
    simp only [serialExtract] at h
    cases hiv : invSerial kvs with
    | some s =>
      rw [hiv] at h
      exact invSerial_mentions kvs s hiv
    | none =>
      rw [hiv] at h
      simp only at h
      exact infoSerial_mentions kvs sn h
  | null => simp [serialExtract] at h
  | bool b => simp [serialExtract] at h
  | int n => simp [serialExtract] at h
  | str s => simp [serialExtract] at h
  | arr xs => simp [serialExtract] at h

theorem serialOfItem_obj (kvs : List (String × Val)) :
    CollectInventory.serialOfItem (Val.obj kvs) =
      Except.ok (if ((lookupK "serial-number" kvs).getD Val.null).truthy
        then (lookupK "serial-number" kvs).getD Val.null
        else (lookupK "serial" kvs).getD Val.null) := by
  by_cases ha : ((lookupK "serial-number" kvs).getD Val.null).truthy <;>
    simp [CollectInventory.serialOfItem, Val.getN, Val.get, ha]

theorem serialFromItems_ok (items : List Val)
    (hws : ∀ it ∈ items, ∃ kvs, it = Val.obj kvs) :
    CollectInventory.serialFromItems items = Except.ok (itemsSerial items) := by
  induction items with
  | nil => rfl
  | cons x rest ih =>
    obtain ⟨kvs, hx⟩ := hws x (by simp)
    subst hx
    have ihr := ih (fun it hit => hws it (by simp [hit]))
    by_cases hsn : (if ((lookupK "serial-number" kvs).getD Val.null).truthy
        then (lookupK "serial-number" kvs).getD Val.null
        else (lookupK "serial" kvs).getD Val.null).truthy
    · simp [CollectInventory.serialFromItems, serialOfItem_obj, hsn, itemsSerial, itemSerial]
    · simp [CollectInventory.serialFromItems, serialOfItem_obj, hsn, itemsSerial, itemSerial,
        ihr]

theorem serialFromInv_ok (inv : Val)
    (hws : ∀ items, inv = Val.arr items → ∀ it ∈ items, ∃ kvs, it = Val.obj kvs) :
    CollectInventory.serialFromInv inv = Except.ok (invSerialV inv) := by
  cases inv with
  | arr items => exact serialFromItems_ok items (hws items rfl)
  | null => rfl
  | bool b => rfl
  | int n => rfl
  | str s => rfl
  | obj kvs => rfl

theorem serialFromInfo_ok (info : Val) :
    CollectInventory.serialFromInfo info = Except.ok (infoSerialV info) := by
  cases info with
  | obj ikvs =>
    simp only [CollectInventory.serialFromInfo, serialOfItem_obj, exbind_ok, infoSerialV,
      itemSerial]
    by_cases hsn : (if ((lookupK "serial-number" ikvs).getD Val.null).truthy
        then (lookupK "serial-number" ikvs).getD Val.null
        else (lookupK "serial" ikvs).getD Val.null).truthy <;>
      simp [hsn]
  | null => rfl
  | bool b => rfl
  | int n => rfl
  | str s => rfl
  | arr xs => rfl

theorem serialFromData_ok (data : Val) (htr : data.truthy = true)
    (hws : wellShapedSerial data = true) :
    CollectInventory.serialFromData data = Except.ok (serialExtract data) := by
  cases data with
  | obj kvs =>
    simp only [wellShapedSerial, htr, if_pos] at hws
    have hallobj : ∀ items,
        (lookupK "Cisco-IOS-XE-device-hardware-oper:device-inventory" kvs).getD Val.null =
          Val.arr items → ∀ it ∈ items, ∃ ikvs, it = Val.obj ikvs := by
      intro items hinv it hit
      rw [hinv] at hws
      simp only at hws
      have := (List.all_eq_true.mp hws) it hit
      cases it with
      | obj ikvs => exact ⟨ikvs, rfl⟩
      | null => simp at this
      | bool b => simp at this
      | int n => simp at this
      | str s => simp at this
      | arr xs => simp at this
    simp only [CollectInventory.serialFromData, Val.getN, Val.get, exbind_ok,
      serialFromInv_ok _ hallobj, serialFromInfo_ok]
    simp only [serialExtract, invSerial, infoSerial]
    cases hiv : invSerialV ((lookupK "Cisco-IOS-XE-device-hardware-oper:device-inventory"
        kvs).getD Val.null) with
    | some sn => simp [hiv]
    | none => simp [hiv]
  | null => simp [Val.truthy] at htr
  | bool b => simp [wellShapedSerial, htr] at hws
  | int n => simp [wellShapedSerial, htr] at hws
  | str s => simp [wellShapedSerial, htr] at hws
  | arr xs => simp [wellShapedSerial, htr] at hws

theorem serialLoop_ci (net : DevNet) (ps : List String)
    (hws : ∀ p ∈ ps, wellShapedSerial ((CollectInventory.rc_get net p).1) = true) :
    CollectInventory.serialLoop net ps =
      Except.ok ((ps.findSome? (probeOf net)).getD Val.null) := by
  induction ps with
  | nil => rfl
  | cons p rest ih =>
    have hrest := ih (fun q hq => hws q (by simp [hq]))
    by_cases hd : ((CollectInventory.rc_get net p).1).truthy
    · have hsf := serialFromData_ok _ hd (hws p (by simp))
      cases he : serialExtract ((CollectInventory.rc_get net p).1) with
      | some sn =>
        simp [CollectInventory.serialLoop, hd, hsf, he, List.findSome?_cons, probeOf]
      | none =>
        simp [CollectInventory.serialLoop, hd, hsf, he, List.findSome?_cons, probeOf,
          hrest]
    · simp [CollectInventory.serialLoop, hd, List.findSome?_cons, probeOf, hrest]

theorem rcData_eq (net : DevNet) (p : String) :
    (CollectDeviceInfo.rc_get net p).1 = (CollectInventory.rc_get net p).1 := by
  simp only [CollectDeviceInfo.rc_get, CollectInventory.rc_get]
  cases net.get p with
  | error e => rfl
  | ok r =>
    by_cases ho : r.isOk <;> cases hj : r.json <;> simp [ho, hj]

theorem serialLoop_di_eq (net : DevNet) (ps : List String)
    (hws : ∀ p ∈ ps, wellShapedSerial ((CollectInventory.rc_get net p).1) = true) :
    CollectDeviceInfo.serialLoop net ps = CollectInventory.serialLoop net ps := by
  induction ps with
  | nil => rfl
  | cons p rest ih =>
    have hrest := ih (fun q hq => hws q (by simp [hq]))
    have hdq := rcData_eq net p
    by_cases hd : ((CollectInventory.rc_get net p).1).truthy
    · have hsf := serialFromData_ok _ hd (hws p (by simp))
      cases he : serialExtract ((CollectInventory.rc_get net p).1) with
      | some sn =>
        have hpy : CollectInventory.pyIn "serial".data
            (lowerL (serialize ((CollectInventory.rc_get net p).1))) = true :=
          decide_eq_true (serialExtract_mentions _ _ he)
        simp [CollectDeviceInfo.serialLoop, CollectInventory.serialLoop, hdq, hd, hpy,
          hsf, he]
      | none =>
        by_cases hpy : CollectInventory.pyIn "serial".data
            (lowerL (serialize ((CollectInventory.rc_get net p).1))) = true
        · simp [CollectDeviceInfo.serialLoop, CollectInventory.serialLoop, hdq, hd, hpy,
            hsf, he, hrest]
        · simp [CollectDeviceInfo.serialLoop, CollectInventory.serialLoop, hdq, hd, hpy,
            hsf, he, hrest]
    · simp [CollectDeviceInfo.serialLoop, CollectInventory.serialLoop, hdq, hd, hrest]

/-- C8: serial-number discovery probes the ordered candidate paths and
returns exactly the first candidate whose read yields data with a non-null
extraction, stopping there — results from later candidates are never
merged — and returns None when no candidate yields a value; this holds for
both the collect_inventory probe and the collect_device_info probe (whose
extra lowered-JSON substring heuristic never changes the outcome, since any
successful extraction makes the serialized data contain the word serial). -/
theorem C8_theorem (net : DevNet)
    (hws : ∀ p ∈ CollectInventory.serialCandidates,
      wellShapedSerial ((CollectInventory.rc_get net p).1) = true) :
    CollectInventory.get_serial_number net =
      Except.ok ((CollectInventory.serialCandidates.findSome? (probeOf net)).getD
        Val.null) ∧
    CollectDeviceInfo.get_serial_number net =
      Except.ok ((CollectInventory.serialCandidates.findSome? (probeOf net)).getD
        Val.null) := by
  refine ⟨serialLoop_ci net _ hws, ?_⟩
  rw [CollectDeviceInfo.get_serial_number, serialLoop_di_eq net _ hws]
  exact serialLoop_ci net _ hws

/-- C8 (witness): on a device whose first candidate path answers with an
inventory list carrying a serial in its second item and whose second
candidate would answer with a different serial, both probes return the
first extraction. -/
theorem C8_witness :
    CollectInventory.get_serial_number serialNet =
      Except.ok ((CollectInventory.serialCandidates.findSome? (probeOf serialNet)).getD
        Val.null) ∧
    CollectDeviceInfo.get_serial_number serialNet =
      Except.ok ((CollectInventory.serialCandidates.findSome? (probeOf serialNet)).getD
        Val.null) :=
  C8_theorem serialNet (by decide)

/-- C6 (counterexample): the intent whose system section sets hostname to
the empty string has the hostname key present in intent.system, yet the
native document omits it (the builder keeps only truthy values), refuting
that the document contains exactly the keys present in intent.system. -/
theorem C6_counterexample :
    (Val.obj [("system", Val.obj [("hostname", Val.str "")])]).get "system" (Val.obj []) =
      Except.ok (Val.obj [("hostname", Val.str "")]) ∧
    PushConfig.build_native_payload (Val.obj [("system", Val.obj [("hostname", Val.str "")])]) =
      Except.ok (Val.obj [("Cisco-IOS-XE-native:native", Val.obj [])]) := ⟨rfl, rfl⟩

/-- C6 (amended): the native document contains exactly the managed keys
whose intent value is truthy (present and non-empty): hostname, the nested
domain name, the nested MOTD banner, and the NTP server list appear exactly
when their intent value is truthy, each carrying that value and never an
emitted null or empty placeholder, and no other key ever appears, so the
PATCH never clears a device field the intent does not mention. -/
theorem C6_theorem (intent sys ntp hn dn bm sv0 : Val) (sl : List Val)
    (hs : intent.get "system" (Val.obj []) = Except.ok sys)
    (hN : intent.get "ntp" (Val.obj []) = Except.ok ntp)
    (h1 : sys.getN "hostname" = Except.ok hn)
    (h2 : sys.getN "domain_name" = Except.ok dn)
    (h3 : sys.getN "banner_motd" = Except.ok bm)
    (h4 : ntp.get "servers" (Val.arr []) = Except.ok sv0)
    (h5 : (if sv0.truthy then sv0 else Val.arr []) = Val.arr sl) :
    ∃ inner, PushConfig.build_native_payload intent =
      Except.ok (Val.obj [("Cisco-IOS-XE-native:native", Val.obj inner)]) ∧
    lookupK "hostname" inner = (if hn.truthy then some hn else Option.none) ∧
    lookupK "ip" inner =
      (if dn.truthy then some (Val.obj [("domain", Val.obj [("name", dn)])]) else Option.none) ∧
    lookupK "banner" inner =
      (if bm.truthy then some (Val.obj [("motd", Val.obj [("banner", bm)])]) else Option.none) ∧
    lookupK "ntp" inner =
      (if (Val.arr sl).truthy then
        some (Val.obj [("server", Val.arr (sl.map (fun ip => Val.obj [("ip-address", ip)])))])
      else Option.none) ∧
    ∀ k, k ≠ "hostname" → k ≠ "ip" → k ≠ "banner" → k ≠ "ntp" →
      lookupK k inner = Option.none := by
  refine ⟨(if hn.truthy then [("hostname", hn)] else []) ++
    ((if dn.truthy then [("ip", Val.obj [("domain", Val.obj [("name", dn)])])] else []) ++
    ((if bm.truthy then [("banner", Val.obj [("motd", Val.obj [("banner", bm)])])] else []) ++
    (if (Val.arr sl).truthy then
      [("ntp", Val.obj [("server", Val.arr (sl.map (fun ip => Val.obj [("ip-address", ip)])))])]
    else []))), ?_, ?_, ?_, ?_, ?_, ?_⟩
  · simp only [PushConfig.build_native_payload, hs, hN, h1, h2, h3, h4, exbind_ok, h5]
    by_cases hc : (Val.arr sl).truthy
    · simp [hc, Val.iter]
    · simp [hc]
  · by_cases hb : hn.truthy <;>
      simp [hb, lookupK, lookupK_append, lookupK_cond]
  · by_cases hb : dn.truthy <;> by_cases ha : hn.truthy <;>
      simp [hb, ha, lookupK, lookupK_append, lookupK_cond]
  · by_cases hb : bm.truthy <;> by_cases ha : hn.truthy <;> by_cases hd : dn.truthy <;>
      simp [hb, ha, hd, lookupK, lookupK_append, lookupK_cond]
  · by_cases hb : (Val.arr sl).truthy <;> by_cases ha : hn.truthy <;>
      by_cases hd : dn.truthy <;> by_cases hm : bm.truthy <;>
      simp [hb, ha, hd, hm, lookupK, lookupK_append, lookupK_cond]
  · intro k k1 k2 k3 k4
    by_cases hb : (Val.arr sl).truthy <;> by_cases ha : hn.truthy <;>
      by_cases hd : dn.truthy <;> by_cases hm : bm.truthy <;>
      simp [hb, ha, hd, hm, lookupK, lookupK_append, lookupK_cond, k1, k2, k3, k4,
        Ne.symm k1, Ne.symm k2, Ne.symm k3, Ne.symm k4]

/-- C6 (witness): an intent setting only the hostname produces a native
document holding exactly that hostname key. -/
theorem C6_witness :
    ∃ inner, PushConfig.build_native_payload
        (Val.obj [("system", Val.obj [("hostname", Val.str "BR1")])]) =
      Except.ok (Val.obj [("Cisco-IOS-XE-native:native", Val.obj inner)]) ∧
    lookupK "hostname" inner = (if (Val.str "BR1").truthy then some (Val.str "BR1")
      else Option.none) ∧
    lookupK "ip" inner = (if Val.null.truthy then
      some (Val.obj [("domain", Val.obj [("name", Val.null)])]) else Option.none) ∧
    lookupK "banner" inner = (if Val.null.truthy then
      some (Val.obj [("motd", Val.obj [("banner", Val.null)])]) else Option.none) ∧
    lookupK "ntp" inner = (if (Val.arr []).truthy then
      some (Val.obj [("server", Val.arr (([] : List Val).map
        (fun ip => Val.obj [("ip-address", ip)])))]) else Option.none) ∧
    ∀ k, k ≠ "hostname" → k ≠ "ip" → k ≠ "banner" → k ≠ "ntp" →
      lookupK k inner = Option.none :=
  C6_theorem (Val.obj [("system", Val.obj [("hostname", Val.str "BR1")])])
    (Val.obj [("hostname", Val.str "BR1")]) (Val.obj []) (Val.str "BR1") Val.null Val.null
    (Val.arr []) [] rfl rfl rfl rfl rfl rfl rfl
